import Mathlib

set_option maxRecDepth 16384

/-!
Verification of the scholar-navigator rewriting forward proxy.

The development shallowly embeds the self-contained fetch/rewrite/serve
pipeline of the repository: `src/utils/urlEncoder.js`,
`src/middleware/errorHandler.js`, `src/handlers/proxyHandler.js` and the
API routes of `server.js`.  JavaScript strings are modelled as `List Char`
(sequences of Unicode scalar values); `Buffer` byte sequences are modelled
as `List Nat` with every element below 256.  Stateful Express handlers are
modelled as pure functions from the request data and an abstract fetch
outcome to the HTTP response they produce.
-/

/-- Carriage of one JavaScript string: a list of Unicode scalar values. -/
abbrev Str := List Char

/-- Whitespace test used for the JavaScript `\s` regex class and `String.trim`
(ASCII whitespace together with NBSP and BOM, the common cases). -/
def isJsSpace (c : Char) : Bool :=
  c = ' ' ∨ c = '\t' ∨ c = '\n' ∨ c = '\x0d' ∨ c = '\x0b' ∨ c = '\x0c' ∨
  c.toNat = 160 ∨ c.toNat = 65279

/-- ASCII lower-casing, as used by case-insensitive regex matching and
`String.prototype.toLowerCase` on ASCII data. -/
def lowerChar (c : Char) : Char :=
  if 'A' ≤ c ∧ c ≤ 'Z' then Char.ofNat (c.toNat + 32) else c

/-- Lower-case a whole string (ASCII). -/
def lowerStr (s : Str) : Str := s.map lowerChar

/-- Case-insensitive test of whether `pat` begins `s` (regex literal
matching under the `i` flag). -/
def ciBegins : Str → Str → Bool
  | [], _ => true
  | _ :: _, [] => false
  | p :: ps, c :: cs => lowerChar c = lowerChar p && ciBegins ps cs

/-- Case-sensitive substring containment, modelling
`String.prototype.includes`. -/
def containsSubstr : Str → Str → Bool
  | [], pat => pat.isEmpty
  | c :: cs, pat => List.isPrefixOf pat (c :: cs) || containsSubstr cs pat

/-- Case-insensitive substring containment (used for side conditions about
`gi`-flagged regex triggers). -/
def containsSubstrCI : Str → Str → Bool
  | [], pat => pat.isEmpty
  | c :: cs, pat => ciBegins pat (c :: cs) || containsSubstrCI cs pat

/-- JavaScript `String.prototype.trim`. -/
def jsTrim (s : Str) : Str :=
  ((s.dropWhile isJsSpace).reverse.dropWhile isJsSpace).reverse

/-! ## UTF-8

`Buffer.from(url, 'utf-8')` and `buffer.toString('utf-8')` convert between
JavaScript strings and byte sequences.  Encoding is standard UTF-8;
decoding replaces malformed sequences with U+FFFD, never raising. -/

/-- UTF-8 encoding of one scalar value. -/
def utf8EncodeChar (c : Char) : List Nat :=
  let n := c.toNat
  if n < 128 then [n]
  else if n < 2048 then [192 + n / 64, 128 + n % 64]
  else if n < 65536 then [224 + n / 4096, 128 + n / 64 % 64, 128 + n % 64]
  else [240 + n / 262144, 128 + n / 4096 % 64, 128 + n / 64 % 64, 128 + n % 64]

/-- UTF-8 encoding of a string. -/
def utf8Encode (s : Str) : List Nat := s.flatMap utf8EncodeChar

/-- The replacement character emitted for malformed UTF-8. -/
def replChar : Char := Char.ofNat 65533

/-- Continuation-byte test. -/
def isCont (b : Nat) : Bool := 128 ≤ b ∧ b ≤ 191

/-- Admissible second byte given a leading byte (excludes overlong forms and
surrogates, as WHATWG/Node decoding does). -/
def validSnd (b1 b2 : Nat) : Bool :=
  if b1 = 224 then 160 ≤ b2 ∧ b2 ≤ 191
  else if b1 = 237 then 128 ≤ b2 ∧ b2 ≤ 159
  else if b1 = 240 then 144 ≤ b2 ∧ b2 ≤ 191
  else if b1 = 244 then 128 ≤ b2 ∧ b2 ≤ 143
  else isCont b2

/-- UTF-8 decoding with U+FFFD replacement on malformed input, modelling
`buffer.toString('utf-8')`: total, never failing. -/
def utf8DecodeRepl : List Nat → Str
  | [] => []
  | b :: rest =>
    if b < 128 then Char.ofNat b :: utf8DecodeRepl rest
    else if b < 194 then replChar :: utf8DecodeRepl rest
    else if b < 224 then
      match rest with
      | [] => [replChar]
      | b2 :: r2 =>
        if isCont b2 then Char.ofNat ((b - 192) * 64 + (b2 - 128)) :: utf8DecodeRepl r2
        else replChar :: utf8DecodeRepl (b2 :: r2)
    else if b < 240 then
      match rest with
      | [] => [replChar]
      | b2 :: r2 =>
        if validSnd b b2 then
          match r2 with
          | [] => [replChar]
          | b3 :: r3 =>
            if isCont b3 then
              Char.ofNat ((b - 224) * 4096 + (b2 - 128) * 64 + (b3 - 128)) :: utf8DecodeRepl r3
            else replChar :: utf8DecodeRepl (b3 :: r3)
        else replChar :: utf8DecodeRepl (b2 :: r2)
    else if b < 245 then
      match rest with
      | [] => [replChar]
      | b2 :: r2 =>
        if validSnd b b2 then
          match r2 with
          | [] => [replChar]
          | b3 :: r3 =>
            if isCont b3 then
              match r3 with
              | [] => [replChar]
              | b4 :: r4 =>
                if isCont b4 then
                  Char.ofNat ((b - 240) * 262144 + (b2 - 128) * 4096 + (b3 - 128) * 64 + (b4 - 128))
                    :: utf8DecodeRepl r4
                else replChar :: utf8DecodeRepl (b4 :: r4)
            else replChar :: utf8DecodeRepl (b3 :: r3)
        else replChar :: utf8DecodeRepl (b2 :: r2)
    else replChar :: utf8DecodeRepl rest

/-! ## Base64 (Node `Buffer` semantics) -/

/-- The standard Base64 alphabet as a function from a sextet. -/
def b64Char (n : Nat) : Char :=
  if n < 26 then Char.ofNat (65 + n)
  else if n < 52 then Char.ofNat (97 + (n - 26))
  else if n < 62 then Char.ofNat (48 + (n - 52))
  else if n = 62 then '+'
  else '/'

/-- The sextet stream of a byte sequence (three bytes to four sextets, with
the short final groups produced by Base64 encoding). -/
def b64Sextets : List Nat → List Nat
  | [] => []
  | [a] => [a / 4, a % 4 * 16]
  | [a, b] => [a / 4, a % 4 * 16 + b / 16, b % 16 * 4]
  | a :: b :: c :: t => a / 4 :: (a % 4 * 16 + b / 16) :: (b % 16 * 4 + c / 64) :: c % 64 :: b64Sextets t

/-- Number of `=` padding characters standard Base64 appends. -/
def b64PadCount : List Nat → Nat
  | [] => 0
  | [_] => 2
  | [_, _] => 1
  | _ :: _ :: _ :: t => b64PadCount t

/-- Standard Base64 encoding with padding, modelling
`Buffer.from(bytes).toString('base64')`. -/
def b64Encode (bs : List Nat) : Str :=
  (b64Sextets bs).map b64Char ++ List.replicate (b64PadCount bs) '='

/-- Value of a Base64 character.  Node's decoder accepts both the standard
and the URL-safe alphabet and skips every other character. -/
def b64CharValue (c : Char) : Option Nat :=
  if 'A' ≤ c ∧ c ≤ 'Z' then some (c.toNat - 65)
  else if 'a' ≤ c ∧ c ≤ 'z' then some (c.toNat - 97 + 26)
  else if '0' ≤ c ∧ c ≤ '9' then some (c.toNat - 48 + 52)
  else if c = '+' ∨ c = '-' then some 62
  else if c = '/' ∨ c = '_' then some 63
  else none

/-- Reassemble bytes from sextets (four sextets to three bytes, a final
group of three to two bytes, of two to one byte, a lone sextet dropped). -/
def b64Bytes : List Nat → List Nat
  | [] => []
  | [_] => []
  | [a, b] => [a * 4 + b / 16]
  | [a, b, c] => [a * 4 + b / 16, b % 16 * 16 + c / 4]
  | a :: b :: c :: d :: t => (a * 4 + b / 16) :: (b % 16 * 16 + c / 4) :: (c % 4 * 64 + d) :: b64Bytes t

/-- Node `Buffer.from(s, 'base64')`: data up to the first `=`, characters
outside the (extended) alphabet skipped, then sextets reassembled.  Total:
malformed input never raises. -/
def b64DecodeNode (s : Str) : List Nat :=
  b64Bytes ((s.takeWhile (· ≠ '=')).filterMap b64CharValue)

/-! ## urlEncoder.js -/

/-- Replacement performed by `encodeUrl`: `+` to `-` and `/` to `_`
(the two `String.replace` calls with global regexes). -/
def toUrlSafeChar (c : Char) : Char :=
  if c = '+' then '-' else if c = '/' then '_' else c

/-- Replacement performed by `decodeUrl`: `-` back to `+` and `_` back to
`/`. -/
def fromUrlSafeChar (c : Char) : Char :=
  if c = '-' then '+' else if c = '_' then '/' else c

/-- Strip the trailing `=` padding (the `replace(/=+$/, '')` step). -/
def stripTrailingEq (s : Str) : Str :=
  (s.reverse.dropWhile (· = '=')).reverse

/-- Pad with `=` until the length is a multiple of four (the `while` loop of
`decodeUrl`). -/
def padToMultipleOfFour (s : Str) : Str :=
  s ++ List.replicate ((4 - s.length % 4) % 4) '='

/-- Embeds `encodeUrl` of `src/utils/urlEncoder.js` acting on the UTF-8
bytes of the URL: Base64, then URL-safe substitution, then padding strip.
Empty (falsy) input yields the empty string. -/
def encodeUrl (url : Str) : Str :=
  if url = [] then []
  else (b64Encode (utf8Encode url)).map toUrlSafeChar |> stripTrailingEq

/-- Embeds `decodeUrl` of `src/utils/urlEncoder.js`: reverse the alphabet
substitution, restore padding, Base64-decode, and read the bytes back as
UTF-8 (with replacement characters; the function is total and never
fails). -/
def decodeUrl (encoded : Str) : Str :=
  if encoded = [] then []
  else utf8DecodeRepl (b64DecodeNode (padToMultipleOfFour (encoded.map fromUrlSafeChar)))

/-! ## Round-trip lemmas for the URL codec -/

theorem char_valid_nat (c : Char) :
    c.toNat < 55296 ∨ (57343 < c.toNat ∧ c.toNat < 1114112) := by
  have h := c.valid
  rcases h with h | h
  · left; simpa [Char.toNat] using h
  · right; obtain ⟨h1, h2⟩ := h; constructor <;> simpa [Char.toNat] using ‹_›

theorem utf8EncodeChar_def (c : Char) :
    utf8EncodeChar c =
      (if c.toNat < 128 then [c.toNat]
       else if c.toNat < 2048 then [192 + c.toNat / 64, 128 + c.toNat % 64]
       else if c.toNat < 65536 then
         [224 + c.toNat / 4096, 128 + c.toNat / 64 % 64, 128 + c.toNat % 64]
       else [240 + c.toNat / 262144, 128 + c.toNat / 4096 % 64,
             128 + c.toNat / 64 % 64, 128 + c.toNat % 64]) := rfl

theorem utf8DecodeRepl_encodeChar (c : Char) (rest : List Nat) :
    utf8DecodeRepl (utf8EncodeChar c ++ rest) = c :: utf8DecodeRepl rest := by
  have hval := char_valid_nat c
  have hofn : Char.ofNat c.toNat = c := Char.ofNat_toNat c
  rw [utf8EncodeChar_def]
  by_cases h1 : c.toNat < 128
  · rw [if_pos h1]
    simp only [List.cons_append, List.nil_append]
    rw [utf8DecodeRepl.eq_def]
    simp [h1, hofn]
  · rw [if_neg h1]
    by_cases h2 : c.toNat < 2048
    · rw [if_pos h2]
      simp only [List.cons_append, List.nil_append]
      rw [utf8DecodeRepl.eq_def]
      have hc : isCont (128 + c.toNat % 64) = true := by simp [isCont]; omega
      have e1 : ¬(192 + c.toNat / 64 < 128) := by omega
      have e2 : ¬(192 + c.toNat / 64 < 194) := by omega
      have e3 : 192 + c.toNat / 64 < 224 := by omega
      simp only [if_neg e1, if_neg e2, if_pos e3, hc, if_pos]
      have h3 : (192 + c.toNat / 64 - 192) * 64 + (128 + c.toNat % 64 - 128) = c.toNat := by omega
      rw [h3, hofn]
    · rw [if_neg h2]
      by_cases h3 : c.toNat < 65536
      · rw [if_pos h3]
        simp only [List.cons_append, List.nil_append]
        rw [utf8DecodeRepl.eq_def]
        have e1 : ¬(224 + c.toNat / 4096 < 128) := by omega
        have e2 : ¬(224 + c.toNat / 4096 < 194) := by omega
        have e3 : ¬(224 + c.toNat / 4096 < 224) := by omega
        have e4 : 224 + c.toNat / 4096 < 240 := by omega
        have hv : validSnd (224 + c.toNat / 4096) (128 + c.toNat / 64 % 64) = true := by
          simp only [validSnd, isCont]
          split_ifs <;> simp <;> omega
        have hc3 : isCont (128 + c.toNat % 64) = true := by simp [isCont]; omega
        simp only [if_neg e1, if_neg e2, if_neg e3, if_pos e4, hv, hc3, if_pos]
        have harith : (224 + c.toNat / 4096 - 224) * 4096 + (128 + c.toNat / 64 % 64 - 128) * 64 +
            (128 + c.toNat % 64 - 128) = c.toNat := by omega
        rw [harith, hofn]
      · rw [if_neg h3]
        simp only [List.cons_append, List.nil_append]
        rw [utf8DecodeRepl.eq_def]
        have hn4 : c.toNat < 1114112 := by omega
        have e1 : ¬(240 + c.toNat / 262144 < 128) := by omega
        have e2 : ¬(240 + c.toNat / 262144 < 194) := by omega
        have e3 : ¬(240 + c.toNat / 262144 < 224) := by omega
        have e4 : ¬(240 + c.toNat / 262144 < 240) := by omega
        have e5 : 240 + c.toNat / 262144 < 245 := by omega
        have hv : validSnd (240 + c.toNat / 262144) (128 + c.toNat / 4096 % 64) = true := by
          simp only [validSnd, isCont]
          split_ifs <;> simp <;> omega
        have hc3 : isCont (128 + c.toNat / 64 % 64) = true := by simp [isCont]; omega
        have hc4 : isCont (128 + c.toNat % 64) = true := by simp [isCont]; omega
        simp only [if_neg e1, if_neg e2, if_neg e3, if_neg e4, if_pos e5, hv, hc3, hc4, if_pos]
        have harith : (240 + c.toNat / 262144 - 240) * 262144 +
            (128 + c.toNat / 4096 % 64 - 128) * 4096 +
            (128 + c.toNat / 64 % 64 - 128) * 64 + (128 + c.toNat % 64 - 128) = c.toNat := by omega
        rw [harith, hofn]

theorem utf8_roundtrip (s : Str) : utf8DecodeRepl (utf8Encode s) = s := by
  induction s with
  | nil => rfl
  | cons c cs ih =>
      show utf8DecodeRepl (utf8EncodeChar c ++ utf8Encode cs) = c :: cs
      rw [utf8DecodeRepl_encodeChar, ih]

theorem utf8EncodeChar_lt (c : Char) : ∀ b ∈ utf8EncodeChar c, b < 256 := by
  have hval := char_valid_nat c
  rw [utf8EncodeChar]
  split_ifs <;> intro b hb <;> simp_all <;> omega

theorem utf8Encode_lt (s : Str) : ∀ b ∈ utf8Encode s, b < 256 := by
  intro b hb
  rw [utf8Encode, List.mem_flatMap] at hb
  obtain ⟨c, _, hbc⟩ := hb
  exact utf8EncodeChar_lt c b hbc

theorem utf8EncodeChar_ne_nil (c : Char) : utf8EncodeChar c ≠ [] := by
  rw [utf8EncodeChar_def]
  split_ifs <;> simp

theorem utf8Encode_ne_nil (s : Str) (h : s ≠ []) : utf8Encode s ≠ [] := by
  cases s with
  | nil => exact absurd rfl h
  | cons c cs =>
      show utf8EncodeChar c ++ utf8Encode cs ≠ []
      simp [utf8EncodeChar_ne_nil c]

theorem b64Sextets_lt (bs : List Nat) (h : ∀ b ∈ bs, b < 256) :
    ∀ x ∈ b64Sextets bs, x < 64 := by
  induction bs using b64Sextets.induct with
  | case1 => simp [b64Sextets]
  | case2 a =>
      have ha := h a (by simp)
      simp [b64Sextets]
      constructor <;> omega
  | case3 a b =>
      have ha := h a (by simp)
      have hb := h b (by simp)
      simp [b64Sextets]
      refine ⟨by omega, by omega, by omega⟩
  | case4 a b c t ih =>
      have ha := h a (by simp)
      have hb := h b (by simp)
      have hc := h c (by simp)
      intro x hx
      rw [b64Sextets] at hx
      simp only [List.mem_cons] at hx
      rcases hx with rfl | rfl | rfl | rfl | hx
      · omega
      · omega
      · omega
      · omega
      · exact ih (fun y hy => h y (by simp [hy])) x hx

theorem b64Bytes_b64Sextets (bs : List Nat) (h : ∀ b ∈ bs, b < 256) :
    b64Bytes (b64Sextets bs) = bs := by
  induction bs using b64Sextets.induct with
  | case1 => rfl
  | case2 a =>
      have ha := h a (by simp)
      simp [b64Sextets, b64Bytes]
      omega
  | case3 a b =>
      have ha := h a (by simp)
      have hb := h b (by simp)
      simp [b64Sextets, b64Bytes]
      constructor <;> omega
  | case4 a b c t ih =>
      have ha := h a (by simp)
      have hb := h b (by simp)
      have hc := h c (by simp)
      rw [b64Sextets, b64Bytes]
      rw [ih (fun y hy => h y (by simp [hy]))]
      have e1 : a / 4 * 4 + (a % 4 * 16 + b / 16) / 16 = a := by omega
      have e2 : (a % 4 * 16 + b / 16) % 16 * 16 + (b % 16 * 4 + c / 64) / 4 = b := by omega
      have e3 : (b % 16 * 4 + c / 64) % 4 * 64 + c % 64 = c := by omega
      rw [e1, e2, e3]

theorem b64Sextets_ne_nil (bs : List Nat) (h : bs ≠ []) : b64Sextets bs ≠ [] := by
  match bs with
  | [] => exact absurd rfl h
  | [a] => simp [b64Sextets]
  | [a, b] => simp [b64Sextets]
  | a :: b :: c :: t => simp [b64Sextets]

theorem b64CharValue_b64Char : ∀ n < 64, b64CharValue (b64Char n) = some n := by decide

theorem fromTo_b64Char : ∀ n < 64, fromUrlSafeChar (toUrlSafeChar (b64Char n)) = b64Char n := by
  decide

theorem toUrlSafeChar_b64Char_ne : ∀ n < 64, toUrlSafeChar (b64Char n) ≠ '=' := by decide

theorem b64Char_ne_eq : ∀ n < 64, b64Char n ≠ '=' := by decide

theorem b64len_mod (bs : List Nat) :
    ((b64Sextets bs).length + b64PadCount bs) % 4 = 0 := by
  induction bs using b64Sextets.induct with
  | case1 => rfl
  | case2 a => simp [b64Sextets, b64PadCount]
  | case3 a b => simp [b64Sextets, b64PadCount]
  | case4 a b c t ih =>
      rw [b64Sextets, b64PadCount]
      simp only [List.length_cons]
      omega

theorem b64PadCount_le (bs : List Nat) : b64PadCount bs ≤ 2 := by
  induction bs using b64PadCount.induct <;> simp_all [b64PadCount]

theorem dropWhileEq_replicate_append (k : Nat) (l : Str) :
    List.dropWhile (fun c => c = '=') (List.replicate k '=' ++ l) =
    List.dropWhile (fun c => c = '=') l := by
  induction k with
  | zero => rfl
  | succ n ih => simp [List.replicate_succ, ih]

theorem dropWhileEq_self (xs : Str) (h : ∀ c ∈ xs, c ≠ '=') :
    List.dropWhile (fun c => c = '=') xs = xs := by
  cases xs with
  | nil => rfl
  | cons y ys =>
      rw [List.dropWhile_cons_of_neg]
      simpa using h y (by simp)

theorem stripTrailingEq_append (xs : Str) (k : Nat) (h : ∀ c ∈ xs, c ≠ '=') :
    stripTrailingEq (xs ++ List.replicate k '=') = xs := by
  rw [stripTrailingEq, List.reverse_append, List.reverse_replicate]
  rw [dropWhileEq_replicate_append]
  rw [dropWhileEq_self _ (fun c hc => h c (by simpa using hc))]
  exact List.reverse_reverse xs

theorem takeWhileNe_append (xs : Str) (k : Nat) (h : ∀ c ∈ xs, c ≠ '=') :
    List.takeWhile (· ≠ '=') (xs ++ List.replicate k '=') = xs := by
  induction xs with
  | nil =>
      cases k with
      | zero => rfl
      | succ n => simp [List.replicate_succ]
  | cons y ys ih =>
      rw [List.cons_append, List.takeWhile_cons_of_pos (by simpa using h y (by simp))]
      rw [ih (fun c hc => h c (by simp [hc]))]

theorem filterMap_b64CharValue (sexts : List Nat) (h : ∀ x ∈ sexts, x < 64) :
    List.filterMap b64CharValue (List.map b64Char sexts) = sexts := by
  induction sexts with
  | nil => rfl
  | cons x t ih =>
      rw [List.map_cons, List.filterMap_cons]
      rw [b64CharValue_b64Char x (h x (by simp))]
      rw [ih (fun y hy => h y (by simp [hy]))]

theorem encodeUrl_eq_map (u : Str) (hu : u ≠ []) :
    encodeUrl u = List.map (fun x => toUrlSafeChar (b64Char x)) (b64Sextets (utf8Encode u)) := by
  have hsx : ∀ x ∈ b64Sextets (utf8Encode u), x < 64 := b64Sextets_lt _ (utf8Encode_lt u)
  rw [encodeUrl, if_neg hu]
  show stripTrailingEq (List.map toUrlSafeChar (b64Encode (utf8Encode u))) = _
  rw [b64Encode, List.map_append, List.map_map, List.map_replicate]
  rw [show toUrlSafeChar '=' = '=' from rfl]
  rw [stripTrailingEq_append]
  · rfl
  · intro c hc
    rw [List.mem_map] at hc
    obtain ⟨x, hx, rfl⟩ := hc
    exact toUrlSafeChar_b64Char_ne x (hsx x hx)

/-- Claim C2: for every URL string `u` (in particular every valid absolute
http(s) URL), `decodeUrl (encodeUrl u) = u`.  `encodeUrl` produces URL-safe
Base64 (standard alphabet with `+` replaced by `-`, `/` by `_`, trailing `=`
stripped) of the UTF-8 bytes of `u`, and `decodeUrl` reverses the
substitution, restores the padding and Base64-decodes back to the identical
string.  Both functions are pure: they take only the string and depend on no
request state. -/
theorem decodeUrl_encodeUrl (u : Str) : decodeUrl (encodeUrl u) = u := by
  by_cases hu : u = []
  · subst hu; rfl
  · have hbs : ∀ b ∈ utf8Encode u, b < 256 := utf8Encode_lt u
    have hsx : ∀ x ∈ b64Sextets (utf8Encode u), x < 64 := b64Sextets_lt _ hbs
    rw [encodeUrl_eq_map u hu]
    have hne : List.map (fun x => toUrlSafeChar (b64Char x)) (b64Sextets (utf8Encode u)) ≠ [] := by
      simp only [ne_eq, List.map_eq_nil_iff]
      exact b64Sextets_ne_nil _ (utf8Encode_ne_nil u hu)
    rw [decodeUrl, if_neg hne]
    rw [List.map_map]
    have hfrom : List.map (fromUrlSafeChar ∘ fun x => toUrlSafeChar (b64Char x))
        (b64Sextets (utf8Encode u)) = List.map b64Char (b64Sextets (utf8Encode u)) := by
      apply List.map_congr_left
      intro x hx
      exact fromTo_b64Char x (hsx x hx)
    rw [hfrom]
    have hpad : padToMultipleOfFour (List.map b64Char (b64Sextets (utf8Encode u))) =
        List.map b64Char (b64Sextets (utf8Encode u)) ++
          List.replicate (b64PadCount (utf8Encode u)) '=' := by
      rw [padToMultipleOfFour, List.length_map]
      have h1 := b64len_mod (utf8Encode u)
      have h2 := b64PadCount_le (utf8Encode u)
      congr 1
      congr 1
      omega
    rw [hpad, b64DecodeNode]
    rw [takeWhileNe_append]
    · rw [filterMap_b64CharValue _ hsx]
      rw [b64Bytes_b64Sextets _ hbs]
      exact utf8_roundtrip u
    · intro c hc
      rw [List.mem_map] at hc
      obtain ⟨x, hx, rfl⟩ := hc
      exact b64Char_ne_eq x (hsx x hx)

/-! ## WHATWG URL model

The handlers use the JavaScript `URL` constructor for validation
(`isValidUrl`), hostname extraction (`extractDomain`) and reference
resolution (`resolveUrl`).  The model below covers the scheme, authority
(userinfo/host/port), path (with dot-segment removal), query and fragment
structure of `new URL(...)` and its `href` serialisation for the common
http(s) forms; exotic corners of the WHATWG algorithm (IDNA, percent-encode
normalisation, special-scheme relative forms such as `http:foo` resolved
against a same-scheme base) are outside the model. -/

/-- Decimal digit test. -/
def isDigit (c : Char) : Bool := '0' ≤ c ∧ c ≤ '9'

/-- ASCII letter test. -/
def isAlpha (c : Char) : Bool := ('a' ≤ c ∧ c ≤ 'z') ∨ ('A' ≤ c ∧ c ≤ 'Z')

/-- Characters allowed in a URL scheme after the first. -/
def isSchemeChar (c : Char) : Bool :=
  isAlpha c ∨ isDigit c ∨ c = '+' ∨ c = '-' ∨ c = '.'

/-- Decimal reading of a digit string. -/
def digitsToNat (s : Str) : Nat := s.foldl (fun acc c => acc * 10 + (c.toNat - 48)) 0

/-- Decimal printing of a number. -/
def natToStr (n : Nat) : Str := Nat.toDigits 10 n

/-- Parsed form of a URL: either one with an authority, or an opaque-path
URL (`mailto:`, `javascript:`, ...). -/
inductive UrlParts where
  | auth (scheme userinfo host : Str) (port : Option Nat) (path : Str)
      (query frag : Option Str)
  | opq (scheme rest : Str)
deriving DecidableEq, Repr

/-- Split a leading `scheme:` off a URL string, lower-casing the scheme. -/
def splitScheme (s : Str) : Option (Str × Str) :=
  let sch := s.takeWhile isSchemeChar
  match s.drop sch.length with
  | ':' :: r =>
      match sch with
      | [] => none
      | c :: _ => if isAlpha c then some (lowerStr sch, r) else none
  | _ => none

/-- Schemes the WHATWG standard treats as special (authority-bearing). -/
def specialSchemes : List Str :=
  [('h' :: 't' :: 't' :: 'p' :: []), ('h' :: 't' :: 't' :: 'p' :: 's' :: []),
   ('w' :: 's' :: []), ('w' :: 's' :: 's' :: []), ('f' :: 't' :: 'p' :: [])]

/-- Default port of a special scheme. -/
def defaultPort (scheme : Str) : Option Nat :=
  if scheme = ("http".data) then some 80
  else if scheme = ("https".data) then some 443
  else if scheme = ("ws".data) then some 80
  else if scheme = ("wss".data) then some 443
  else if scheme = ("ftp".data) then some 21
  else none

/-- Split `path[?query][#frag]` (the fragment may precede a `?`, in which
case everything after `#` is fragment). -/
def splitPQF (s : Str) : Str × Option Str × Option Str :=
  let path := s.takeWhile (fun c => ¬(c = '?' ∨ c = '#'))
  match s.drop path.length with
  | '?' :: r =>
      let q := r.takeWhile (· ≠ '#')
      match r.drop q.length with
      | '#' :: f => (path, some q, some f)
      | _ => (path, some q, none)
  | '#' :: f => (path, none, some f)
  | _ => (path, none, none)

/-- Dot-segment removal on a list of path segments. -/
def rdsGo : List Str → List Str → List Str
  | out, [] => out
  | out, seg :: rest =>
    if seg = ('.' :: []) then
      (if rest = [] then out ++ [[]] else rdsGo out rest)
    else if seg = ('.' :: '.' :: []) then
      (if rest = [] then out.dropLast ++ [[]] else rdsGo out.dropLast rest)
    else rdsGo (out ++ [seg]) rest

/-- Dot-segment removal on a slash-delimited absolute path. -/
def removeDotSegments (p : Str) : Str :=
  match p with
  | '/' :: rest => '/' :: List.intercalate ('/' :: []) (rdsGo [] (List.splitOn '/' rest))
  | other => other

/-- Split the host and port of a `host[:port]` (bracketed IPv6 hosts keep
their brackets, as the WHATWG `hostname` getter does). -/
def splitHostPort (hp : Str) : Option (Str × Option Str) :=
  match hp with
  | '[' :: rest =>
      let inside := rest.takeWhile (· ≠ ']')
      match rest.drop inside.length with
      | ']' :: after =>
          match after with
          | [] => some ('[' :: inside ++ (']' :: []), none)
          | ':' :: p => some ('[' :: inside ++ (']' :: []), some p)
          | _ => none
      | _ => none
  | _ =>
      let revHp := hp.reverse
      let revPort := revHp.takeWhile (· ≠ ':')
      match revHp.drop revPort.length with
      | ':' :: revHost => some (revHost.reverse, some revPort.reverse)
      | _ => some (hp, none)

/-- Parse the part of a URL following the authority slashes. -/
def parseAuthority (scheme : Str) (s : Str) : Option UrlParts :=
  let authority := s.takeWhile (fun c => ¬(c = '/' ∨ c = '?' ∨ c = '#'))
  let tail := s.drop authority.length
  if authority = [] then none
  else
    let revA := authority.reverse
    let revHp := revA.takeWhile (· ≠ '@')
    let userinfo :=
      match revA.drop revHp.length with
      | '@' :: revUi => revUi.reverse
      | _ => []
    let hp := revHp.reverse
    match splitHostPort hp with
    | none => none
    | some (host, portStr) =>
        if host = [] then none
        else
          let portVal : Option (Option Nat) :=
            match portStr with
            | none => some none
            | some [] => some none
            | some ds =>
                if ds.all isDigit ∧ digitsToNat ds ≤ 65535 then some (some (digitsToNat ds))
                else none
          match portVal with
          | none => none
          | some port =>
              let pqf := splitPQF tail
              some (.auth scheme userinfo (lowerStr host)
                (match port with
                 | some p => if defaultPort scheme = some p then none else some p
                 | none => none)
                (removeDotSegments pqf.1) pqf.2.1 pqf.2.2)

/-- Parse an absolute URL, modelling the throwing `new URL(url)`. -/
def parseUrl (s : Str) : Option UrlParts :=
  match splitScheme s with
  | none => none
  | some (sch, rest) =>
      if sch ∈ specialSchemes then
        parseAuthority sch (rest.dropWhile (fun c => c = '/' ∨ c = '\\'))
      else
        match rest with
        | '/' :: '/' :: r => parseAuthority sch r
        | _ => some (.opq sch rest)

/-- Serialise a parsed URL back to its `href` string. -/
def serializeUrl : UrlParts → Str
  | .auth sch ui host port path query frag =>
      sch ++ (':' :: '/' :: '/' :: []) ++
      (if ui = [] then [] else ui ++ ('@' :: [])) ++ host ++
      (match port with
       | some p => ':' :: natToStr p
       | none => []) ++
      (if path = [] then ('/' :: []) else path) ++
      (match query with
       | some q => '?' :: q
       | none => []) ++
      (match frag with
       | some f => '#' :: f
       | none => [])
  | .opq sch rest => sch ++ (':' :: rest)

/-- Directory part of a base path (through the last `/`). -/
def dirOf (p : Str) : Str :=
  (p.reverse.dropWhile (· ≠ '/')).reverse

/-- Resolution of (possibly relative) `url` against `base`, modelling
`new URL(url, base).href`; `none` models a thrown `TypeError`. -/
def newUrl (url base : Str) : Option Str :=
  match parseUrl url with
  | some u => some (serializeUrl u)
  | none =>
      match parseUrl base with
      | none => none
      | some (.opq _ _) => none
      | some (.auth sch ui host port bpath bq _) =>
          match url with
          | '/' :: '/' :: r =>
              match parseAuthority sch r with
              | some u => some (serializeUrl u)
              | none => none
          | '/' :: _ =>
              let pqf := splitPQF url
              some (serializeUrl (.auth sch ui host port (removeDotSegments pqf.1) pqf.2.1 pqf.2.2))
          | '?' :: r =>
              let q := r.takeWhile (· ≠ '#')
              let f : Option Str :=
                match r.drop q.length with
                | '#' :: fr => some fr
                | _ => none
              some (serializeUrl (.auth sch ui host port bpath (some q) f))
          | '#' :: fr => some (serializeUrl (.auth sch ui host port bpath bq (some fr)))
          | [] => some (serializeUrl (.auth sch ui host port bpath bq none))
          | _ =>
              let pqf := splitPQF url
              let basePath := if bpath = [] then ('/' :: []) else bpath
              some (serializeUrl (.auth sch ui host port
                (removeDotSegments (dirOf basePath ++ pqf.1)) pqf.2.1 pqf.2.2))

/-- Embeds `isValidUrl` of `src/utils/urlEncoder.js`: parse, demand an
http(s) scheme, and reject the loopback blocklist and the three private
prefixes.  The hostname compared is the WHATWG `hostname` getter value
(bracketed for IPv6), lower-cased. -/
def isValidUrl (url : Str) : Bool :=
  if url = [] then false
  else
    match parseUrl url with
    | none => false
    | some u =>
        let protocol :=
          match u with
          | .auth sch _ _ _ _ _ _ => sch
          | .opq sch _ => sch
        let hostname :=
          match u with
          | .auth _ _ host _ _ _ _ => host
          | .opq _ _ => []
        if ¬(protocol = ("http".data) ∨ protocol = ("https".data)) then false
        else if hostname = ("localhost".data) ∨ hostname = ("127.0.0.1".data) ∨
            hostname = ("0.0.0.0".data) ∨ hostname = ("::1".data) then false
        else if List.isPrefixOf ("192.168.".data) hostname ∨
            List.isPrefixOf ("10.".data) hostname ∨
            List.isPrefixOf ("172.16.".data) hostname then false
        else true

/-- Embeds `extractDomain` of `src/utils/urlEncoder.js`. -/
def extractDomain (url : Str) : Str :=
  match parseUrl url with
  | none => ("unknown".data)
  | some (.auth _ _ host _ _ _ _) => host
  | some (.opq _ _) => []

/-! ## Percent encoding -/

/-- Characters `encodeURIComponent` leaves unescaped. -/
def isUriUnreserved (c : Char) : Bool :=
  isAlpha c ∨ isDigit c ∨ c = '-' ∨ c = '_' ∨ c = '.' ∨ c = '!' ∨ c = '~' ∨
  c = '*' ∨ c = Char.ofNat 39 ∨ c = '(' ∨ c = ')'

/-- Upper-case hex digit. -/
def hexDigit (n : Nat) : Char :=
  if n < 10 then Char.ofNat (48 + n) else Char.ofNat (65 + (n - 10))

/-- Percent escape of one byte. -/
def percentByte (b : Nat) : Str := '%' :: hexDigit (b / 16) :: hexDigit (b % 16) :: []

/-- Embeds the JavaScript `encodeURIComponent` builtin (UTF-8 bytes of every
reserved character percent-escaped with upper-case hex). -/
def encodeURIComponent (s : Str) : Str :=
  s.flatMap (fun c => if isUriUnreserved c then [c] else (utf8EncodeChar c).flatMap percentByte)

/-- Value of one hex digit (either case). -/
def hexVal (c : Char) : Option Nat :=
  if '0' ≤ c ∧ c ≤ '9' then some (c.toNat - 48)
  else if 'A' ≤ c ∧ c ≤ 'F' then some (c.toNat - 65 + 10)
  else if 'a' ≤ c ∧ c ≤ 'f' then some (c.toNat - 97 + 10)
  else none

/-- Strict UTF-8 decoding: `none` on any malformed sequence (the validation
`decodeURIComponent` applies to percent-decoded bytes). -/
def utf8DecodeStrict : List Nat → Option Str
  | [] => some []
  | b :: rest =>
    if b < 128 then (utf8DecodeStrict rest).map (Char.ofNat b :: ·)
    else if b < 194 then none
    else if b < 224 then
      match rest with
      | b2 :: r2 =>
          if isCont b2 then (utf8DecodeStrict r2).map (Char.ofNat ((b - 192) * 64 + (b2 - 128)) :: ·)
          else none
      | [] => none
    else if b < 240 then
      match rest with
      | b2 :: b3 :: r3 =>
          if validSnd b b2 ∧ isCont b3 then
            (utf8DecodeStrict r3).map (Char.ofNat ((b - 224) * 4096 + (b2 - 128) * 64 + (b3 - 128)) :: ·)
          else none
      | _ => none
    else if b < 245 then
      match rest with
      | b2 :: b3 :: b4 :: r4 =>
          if validSnd b b2 ∧ isCont b3 ∧ isCont b4 then
            (utf8DecodeStrict r4).map
              (Char.ofNat ((b - 240) * 262144 + (b2 - 128) * 4096 + (b3 - 128) * 64 + (b4 - 128)) :: ·)
          else none
      | _ => none
    else none

/-- Collect a maximal run of `%XX` escapes into bytes; `none` on a truncated
or non-hex escape (the `URIError` cases). -/
def percentRun : Str → Option (List Nat × Str)
  | '%' :: c1 :: c2 :: rest =>
      match hexVal c1, hexVal c2 with
      | some h, some l =>
          match percentRun rest with
          | some (bs, r) => some ((h * 16 + l) :: bs, r)
          | none => none
      | _, _ => none
  | '%' :: _ => none
  | s => some ([], s)

/-- Fuel-driven core of `decodeURIComponent`: each step consumes at least
one input character, so fuel equal to the input length suffices. -/
def decodeURICompFuel : Nat → Str → Option Str
  | _, [] => some []
  | 0, _ :: _ => none
  | fuel + 1, '%' :: rest =>
      match percentRun ('%' :: rest) with
      | none => none
      | some (bs, r) =>
          match utf8DecodeStrict bs with
          | none => none
          | some chars =>
              match decodeURICompFuel fuel r with
              | none => none
              | some tail => some (chars ++ tail)
  | fuel + 1, c :: rest =>
      match decodeURICompFuel fuel rest with
      | none => none
      | some tail => some (c :: tail)

/-- Embeds the JavaScript `decodeURIComponent` builtin: percent-escape runs
are byte-decoded and must form valid UTF-8; `none` models a `URIError`. -/
def decodeURIComponentJs (s : Str) : Option Str :=
  decodeURICompFuel s.length s

/-! ## proxyHandler.js: URL resolution helpers -/

/-- Embeds `resolveUrl` of `src/handlers/proxyHandler.js`: protocol-relative
URLs become `https:`, the unproxyable prefixes yield `null`, everything else
goes through `new URL(url, baseUrl).href` with a thrown error mapped to
`null`. -/
def resolveUrl (url baseUrl : Str) : Option Str :=
  if List.isPrefixOf ("//".data) url then some (("https:".data) ++ url)
  else if List.isPrefixOf ("data:".data) url ∨ List.isPrefixOf ("javascript:".data) url ∨
      List.isPrefixOf ("mailto:".data) url ∨ List.isPrefixOf ("tel:".data) url ∨
      List.isPrefixOf ("#".data) url then none
  else newUrl url baseUrl

/-- Embeds `makeProxyUrl` of `src/handlers/proxyHandler.js`. -/
def makeProxyUrl (resourceUrl proxyBase : Str) : Option Str :=
  if resourceUrl = [] then none
  else some (proxyBase ++ ("/api/resource?url=".data) ++ encodeURIComponent resourceUrl)

/-! ## proxyHandler.js: regex passes of transformHtml

Each `String.replace(regex, fn)` pass is embedded as a leftmost scan with a
per-position matcher.  The matcher for the attribute patterns
`(<[^>]+\ssrc=["'])([^"']+)(["'][^>]*>)` (and the `<link ... href` /
`<form ... action` variants) realises the backtracking regex semantics
directly: the greedy `[^>]+` group selects the right-most admissible
`\sattr=["']` occurrence whose continuation also matches. -/

/-- Quote character test (the `["']` class). -/
def isQuote (c : Char) : Bool := c = '"' ∨ c = Char.ofNat 39

/-- Head test of a quote. -/
def headIsQuote : Str → Bool
  | q :: _ => isQuote q
  | [] => false

/-- The three captured groups of one attribute match together with the rest
of the input after the match. -/
structure AttrMatch where
  pfx : Str
  value : Str
  sfx : Str
  rest : Str
deriving Repr, DecidableEq

/-- Indices `i` (within the text after `<`) at which a whitespace character
is followed by the attribute name and an opening quote, restricted to the
`>`-free region that the `[^>]+` group can span. -/
def candIdxs (attr : Str) : Str → List Nat
  | [] => []
  | c :: r =>
      (if isJsSpace c ∧ ciBegins attr r ∧ headIsQuote (r.drop attr.length) then [0] else []) ++
      (if c = '>' then [] else (candIdxs attr r).map (· + 1))

/-- Attempt to complete a match at candidate index `i`: the value is the
maximal quote-free run after the opening quote (nonempty), then any quote
closes it, then the `[^>]*>` tail runs to the next `>`. -/
def attemptAt (attr : Str) (t : Str) (i : Nat) : Option AttrMatch :=
  let befLen := i + 1 + attr.length + 1
  let u := t.drop befLen
  let v := u.takeWhile (fun c => ¬ isQuote c)
  if v = [] then none
  else
    match u.drop v.length with
    | q2 :: u2 =>
        let y := u2.takeWhile (· ≠ '>')
        match u2.drop y.length with
        | _ :: rem => some ⟨t.take befLen, v, q2 :: (y ++ ('>' :: [])), rem⟩
        | [] => none
    | [] => none

/-- Right-most candidate whose attempt succeeds (greedy `[^>]+`). -/
def pickLast (attr : Str) (t : Str) : List Nat → Option AttrMatch
  | [] => none
  | i :: rest =>
      match pickLast attr t rest with
      | some m => some m
      | none => attemptAt attr t i

/-- Core attribute matcher on the text following `<`; the `[^>]+` group must
be nonempty, so index 0 is not a candidate. -/
def matchCore (attr : Str) (t : Str) : Option AttrMatch :=
  pickLast attr t ((candIdxs attr t).filter (fun i => 1 ≤ i))

/-- Matcher for `(<[^>]+\sattr=["'])([^"']+)(["'][^>]*>)` at the current
position. -/
def tryMatchAttr (attr : Str) : Str → Option AttrMatch
  | '<' :: t => (matchCore attr t).map (fun m => { m with pfx := '<' :: m.pfx })
  | _ => none

/-- Matcher for `(<lit[^>]+\sattr=["'])([^"']+)(["'][^>]*>)` (the `<link`
and `<form` variants; `lit` matched case-insensitively). -/
def tryMatchLitAttr (lit attr : Str) : Str → Option AttrMatch
  | '<' :: t =>
      if ciBegins lit t then
        (matchCore attr (t.drop lit.length)).map
          (fun m => { m with pfx := '<' :: (t.take lit.length ++ m.pfx) })
      else none
  | _ => none

/-- Leftmost repeated replacement (the `/g` flag): scan forward, replace each
match, continue after it.  Fuel bounds the recursion; every step consumes at
least one character, so fuel equal to the input length is enough. -/
def scanA (f : Str → Option AttrMatch) (repl : AttrMatch → Str) : Nat → Str → Str
  | _, [] => []
  | 0, s => s
  | fuel + 1, c :: rest =>
      match f (c :: rest) with
      | some m => repl m ++ scanA f repl fuel m.rest
      | none => c :: scanA f repl fuel rest

/-- The replacement callback shared by the `src`, `href` and `action`
passes: resolve the trimmed value, keep the whole match when resolution
fails, otherwise substitute the proxy resource URL. -/
def attrRepl (baseUrl proxyBase : Str) (m : AttrMatch) : Str :=
  match resolveUrl (jsTrim m.value) baseUrl with
  | none => m.pfx ++ m.value ++ m.sfx
  | some resolved =>
      match makeProxyUrl resolved proxyBase with
      | some pu => m.pfx ++ pu ++ m.sfx
      | none => m.pfx ++ m.value ++ m.sfx

/-- Split on runs of whitespace (`split(/\s+/)` on trimmed input). -/
def splitWsFuel : Nat → Str → List Str
  | _, [] => [[]]
  | 0, s => [s]
  | fuel + 1, s =>
      let w := s.takeWhile (fun c => ¬ isJsSpace c)
      match s.drop w.length with
      | [] => [w]
      | rest => w :: splitWsFuel fuel (rest.dropWhile isJsSpace)

/-- One srcset candidate: trim, split on whitespace, rewrite only the URL
token, rejoin with single spaces. -/
def srcsetEntryRewrite (baseUrl proxyBase : Str) (entry : Str) : Str :=
  let trimmed := jsTrim entry
  match splitWsFuel trimmed.length trimmed with
  | [] => []
  | p0 :: prest =>
      let p0' :=
        match resolveUrl p0 baseUrl with
        | some r =>
            match makeProxyUrl r proxyBase with
            | some pu => pu
            | none => p0
        | none => p0
      List.intercalate (' ' :: []) (p0' :: prest)

/-- The srcset replacement callback: split on commas, rewrite each
candidate, rejoin with `", "`. -/
def srcsetRepl (baseUrl proxyBase : Str) (m : AttrMatch) : Str :=
  m.pfx ++
    List.intercalate (',' :: ' ' :: [])
      ((List.splitOn ',' m.value).map (srcsetEntryRewrite baseUrl proxyBase)) ++
    m.sfx

/-- Matcher for the CSS pattern `url\(["']?([^"')]+)["']?\)` at the current
position; returns the whole matched text, the captured value and the rest. -/
def tryCssAt (s : Str) : Option (Str × Str × Str) :=
  if ciBegins ("url(".data) s then
    let u0 := s.drop 4
    let q1 : Str := if headIsQuote u0 then u0.take 1 else []
    let u1 := u0.drop q1.length
    let v := u1.takeWhile (fun c => ¬(isQuote c ∨ c = ')'))
    if v = [] then none
    else
      let u2 := u1.drop v.length
      let q2 : Str := if headIsQuote u2 then u2.take 1 else []
      match u2.drop q2.length with
      | ')' :: rem => some (s.take 4 ++ q1 ++ v ++ q2 ++ (')' :: []), v, rem)
      | _ => none
  else none

/-- Leftmost repeated replacement for the CSS `url(...)` passes. -/
def scanCss (rf : Str → Str → Str) : Nat → Str → Str
  | _, [] => []
  | 0, s => s
  | fuel + 1, c :: rest =>
      match tryCssAt (c :: rest) with
      | some (matched, v, rem) => rf matched v ++ scanCss rf fuel rem
      | none => c :: scanCss rf fuel rest

/-- The CSS replacement callback of `transformHtml` (keeps the match when
resolution or `makeProxyUrl` fails, else emits `url("proxied")`). -/
def cssReplTransform (baseUrl proxyBase : Str) (matched v : Str) : Str :=
  match resolveUrl (jsTrim v) baseUrl with
  | none => matched
  | some r =>
      match makeProxyUrl r proxyBase with
      | some pu => ("url(\x22".data) ++ pu ++ ("\x22)".data)
      | none => matched

/-! ## proxyHandler.js: head insertion and the intercept script -/

/-- Matcher for `/<head[^>]*>/i` at the current position. -/
def tryHeadAt (s : Str) : Option (Str × Str) :=
  if ciBegins ("<head".data) s then
    let u := s.drop 5
    let y := u.takeWhile (· ≠ '>')
    match u.drop y.length with
    | '>' :: rem => some (s.take (5 + y.length + 1), rem)
    | _ => none
  else none

/-- The `html.match(/<head[^>]*>/i)` test. -/
def hasHeadMatch : Str → Bool
  | [] => false
  | c :: rest => (tryHeadAt (c :: rest)).isSome || hasHeadMatch rest

/-- Replace the first `/<head[^>]*>/i` match with `$&` followed by `ins`. -/
def headReplace (ins : Str) : Nat → Str → Str
  | _, [] => []
  | 0, s => s
  | fuel + 1, c :: rest =>
      match tryHeadAt (c :: rest) with
      | some (matched, rem) => matched ++ ins ++ rem
      | none => c :: headReplace ins fuel rest

/-- First fixed fragment of the `proxyInterceptScript` template literal
(through `PROXY_BASE = '`). -/
def scriptPartA : Str :=
  ("\n    <script>\n    (function() \x7b\n        const PROXY_BASE = \x27".data)

/-- Second fixed fragment (between the two interpolations). -/
def scriptPartB : Str :=
  ("\x27;\n        const BASE_URL = \x27".data)

/-- Final fixed fragment (after `BASE_URL = '...'`). -/
def scriptPartC : Str :=
  ("\x27;\n        \n        // Helper to resolve and proxy URLs\n        function proxyUrl(url) \x7b\n            try \x7b\n                if (url.startsWith(\x27data:\x27) || url.startsWith(\x27javascript:\x27) || url.startsWith(\x27blob:\x27)) \x7b\n                    return url;\n                \x7d\n                const resolved = new URL(url, BASE_URL).href;\n                return PROXY_BASE + \x27/api/resource?url=\x27 + encodeURIComponent(resolved);\n            \x7d catch(e) \x7b\n                return url;\n            \x7d\n        \x7d\n        \n        // Intercept fetch\n        const originalFetch = window.fetch;\n        window.fetch = function(resource, init) \x7b\n            if (typeof resource === \x27string\x27) \x7b\n                resource = proxyUrl(resource);\n            \x7d else if (resource instanceof Request) \x7b\n                resource = new Request(proxyUrl(resource.url), resource);\n            \x7d\n            return originalFetch.call(this, resource, init);\n        \x7d;\n        \n        // Intercept XMLHttpRequest\n        const originalOpen = XMLHttpRequest.prototype.open;\n        XMLHttpRequest.prototype.open = function(method, url, ...args) \x7b\n            return originalOpen.call(this, method, proxyUrl(url), ...args);\n        \x7d;\n    \x7d)();\n    </script>".data)

/-- The `proxyInterceptScript` template literal of `transformHtml` with both
interpolations spliced in. -/
def proxyInterceptScript (proxyBase baseUrl : Str) : Str :=
  scriptPartA ++ proxyBase ++ scriptPartB ++ baseUrl ++ scriptPartC

/-- The `<base href="...">` safety-net tag. -/
def baseTagFor (baseUrl : Str) : Str :=
  ("<base href=\x22".data) ++ baseUrl ++ ("\x22>".data)

/-- Embeds `transformHtml` of `src/handlers/proxyHandler.js`: the `src`,
`<link ... href`, `<form ... action` passes, the `srcset` pass, the
content-wide CSS `url()` pass, and finally the base-tag/intercept-script
insertion after `<head>` (or prepended when no `<head>` matches). -/
def transformHtml (html baseUrl : Str) (proxyBase : Str := []) : Str :=
  let h1 := scanA (tryMatchAttr ("src=".data)) (attrRepl baseUrl proxyBase) html.length html
  let h2 := scanA (tryMatchLitAttr ("link".data) ("href=".data)) (attrRepl baseUrl proxyBase)
    h1.length h1
  let h3 := scanA (tryMatchLitAttr ("form".data) ("action=".data)) (attrRepl baseUrl proxyBase)
    h2.length h2
  let h4 := scanA (tryMatchAttr ("srcset=".data)) (srcsetRepl baseUrl proxyBase) h3.length h3
  let h5 := scanCss (cssReplTransform baseUrl proxyBase) h4.length h4
  if hasHeadMatch h5 then
    headReplace (('\n' :: baseTagFor baseUrl) ++ ('\n' :: proxyInterceptScript proxyBase baseUrl))
      h5.length h5
  else
    baseTagFor baseUrl ++ ('\n' :: proxyInterceptScript proxyBase baseUrl) ++ ('\n' :: h5)

/-! ## errorHandler.js -/

/-- Structured `details` payloads of the error classes (the object literals
passed to the `AppError` constructor). -/
inductive ErrDetails where
  | invalidUrl (url : Option Str) (explanation : Str) (suggestions : List Str)
  | network (targetUrl : Option Str) (explanation technicalDetails : Str) (suggestions : List Str)
  | content (contentType : Str) (explanation : Str) (suggestions : List Str)
deriving Repr, DecidableEq

/-- An operational `AppError`: status code, machine code, message, details. -/
structure AppErr where
  statusCode : Nat
  errorCode : Str
  message : Str
  details : Option ErrDetails
deriving Repr, DecidableEq

/-- The `InvalidUrlError` class (400, `INVALID_URL`). -/
def invalidUrlError (url : Option Str) : AppErr :=
  { statusCode := 400
    errorCode := ("INVALID_URL".data)
    message := ("The provided URL is not valid or is not allowed".data)
    details := some (.invalidUrl url
      ("URLs must start with http:// or https:// and point to a public website".data)
      [("Make sure the URL includes the protocol (http:// or https://)".data),
       ("Check for typos in the domain name".data),
       ("Verify the website is publicly accessible".data)]) }

/-- Result rows of `NetworkError.analyzeError`. -/
structure ErrMapping where
  message : Str
  code : Str
  explanation : Str
  suggestions : List Str
deriving Repr, DecidableEq

/-- The `errorMappings` lookup of `NetworkError.analyzeError`, including the
generic fallback row. -/
def analyzeError (errorCode : Str) (errorMessage : Str) : ErrMapping :=
  if errorCode = ("ENOTFOUND".data) then
    { message := ("The website could not be found".data)
      code := ("DNS_LOOKUP_FAILED".data)
      explanation := ("The domain name could not be resolved to an IP address. This usually means the website does not exist or there is a DNS configuration issue.".data)
      suggestions :=
        [("Check that the domain name is spelled correctly".data),
         ("Try accessing the website directly in your browser".data),
         ("The website might be temporarily unavailable".data)] }
  else if errorCode = ("ECONNREFUSED".data) then
    { message := ("Connection was refused by the server".data)
      code := ("CONNECTION_REFUSED".data)
      explanation := ("The server exists but actively refused the connection. This could mean the web server is not running or is blocking connections.".data)
      suggestions :=
        [("The website might be down for maintenance".data),
         ("Try again later".data),
         ("The server might be blocking proxy requests".data)] }
  else if errorCode = ("ETIMEDOUT".data) then
    { message := ("Connection timed out".data)
      code := ("CONNECTION_TIMEOUT".data)
      explanation := ("The server took too long to respond. This could be due to slow network conditions or an overloaded server.".data)
      suggestions :=
        [("Check your internet connection".data),
         ("The website might be experiencing high traffic".data),
         ("Try again in a few moments".data)] }
  else if errorCode = ("ECONNRESET".data) then
    { message := ("Connection was reset".data)
      code := ("CONNECTION_RESET".data)
      explanation := ("The connection was unexpectedly closed by the server. This can happen due to network issues or server configuration.".data)
      suggestions :=
        [("Try the request again".data),
         ("Check if the website is accessible directly".data)] }
  else if errorCode = ("CERT_HAS_EXPIRED".data) then
    { message := ("SSL certificate has expired".data)
      code := ("SSL_CERT_EXPIRED".data)
      explanation := ("The website\x27s security certificate has expired. This is a configuration issue on the target website.".data)
      suggestions :=
        [("Contact the website administrator".data),
         ("Try a different website".data)] }
  else
    { message := ("Unable to connect to the website".data)
      code := ("NETWORK_ERROR".data)
      explanation := ("A network error occurred while trying to fetch the content: ".data) ++ errorMessage
      suggestions :=
        [("Check your internet connection".data),
         ("Verify the URL is correct".data),
         ("Try again later".data)] }

/-- A raw error produced by a failed `fetch` (name, `code` property,
message). -/
structure FetchErr where
  name : Str
  code : Str
  message : Str
deriving Repr, DecidableEq

/-- The `NetworkError` class: 502 with the analysed mapping
(`error.code || error.message` selects the mapping key). -/
def networkError (e : FetchErr) (targetUrl : Option Str) : AppErr :=
  let key := if e.code = [] then e.message else e.code
  let m := analyzeError key e.message
  { statusCode := 502
    errorCode := m.code
    message := m.message
    details := some (.network targetUrl m.explanation e.message m.suggestions) }

/-- The `ContentError` class (415, `UNSUPPORTED_CONTENT`). -/
def contentError (contentType reason : Str) : AppErr :=
  { statusCode := 415
    errorCode := ("UNSUPPORTED_CONTENT".data)
    message := ("Cannot process this type of content".data)
    details := some (.content contentType reason
      [("Try fetching a regular web page (HTML content)".data),
       ("Some file types cannot be displayed through the proxy".data)]) }

/-! ## Response envelopes -/

/-- The metadata block of a success envelope. -/
structure RespMeta where
  url : Str
  domain : Str
  statusCode : Nat
  contentType : Str
  contentLength : Nat
  fetchTimeMs : Nat
deriving Repr, DecidableEq

/-- Body of the JSON response the proxy endpoint sends: either the success
envelope of `res.json({success: true, ...})` or the error envelope built by
the error-handling middleware. -/
inductive RespBody where
  | success (meta : RespMeta) (headers : List (Str × Str)) (content : Str)
  | failure (code message timestamp : Str) (details : Option ErrDetails)
deriving Repr, DecidableEq

/-- The error-handling `middleware` of `src/middleware/errorHandler.js`
applied to an `AppErr` (operational errors always carry their fields): HTTP
status from the error, envelope `{success: false, error: {...}}`. -/
def errorMiddleware (e : AppErr) (timestamp : Str) : Nat × RespBody :=
  (e.statusCode, .failure e.errorCode e.message timestamp e.details)

/-- Success test on a response body. -/
def isSuccessResp : RespBody → Bool
  | .success _ _ _ => true
  | .failure _ _ _ _ => false

/-- The `error.code` field of an error envelope. -/
def errCodeOf : RespBody → Option Str
  | .success _ _ _ => none
  | .failure c _ _ _ => some c

/-! ## proxyHandler.js: the request handlers -/

/-- A successful upstream `fetch` response: status, headers, final URL after
redirects (`targetResponse.url`), and the text of the body. -/
structure FetchOk where
  status : Nat
  headers : List (Str × Str)
  finalUrl : Str
  body : Str
deriving Repr, DecidableEq

/-- Outcome of the outbound `fetch`: a response or a raised error. -/
inductive FetchOutcome where
  | ok (r : FetchOk)
  | fail (e : FetchErr)
deriving Repr, DecidableEq

/-- Case-insensitive response-header lookup (`headers.get`). -/
def headerGet (headers : List (Str × Str)) (nm : Str) : Option Str :=
  (headers.find? (fun h => lowerStr h.1 = nm)).map (·.2)

/-- The `maxResponseSize` entry of `PROXY_CONFIG` (10 MiB). -/
def maxResponseSize : Nat := 10 * 1024 * 1024

/-- The `stripHeaders` entry of `PROXY_CONFIG`. -/
def stripHeaders : List Str :=
  [("x-frame-options".data), ("content-security-policy".data),
   ("x-content-type-options".data), ("strict-transport-security".data)]

/-- Embeds `buildResponseHeaders`: drop the stripped header names
(case-insensitively). -/
def buildResponseHeaders (headers : List (Str × Str)) : List (Str × Str) :=
  headers.filter (fun h => ¬ (lowerStr h.1 ∈ stripHeaders))

/-- Embeds `isProcessableContent`: substring test against the allow-list. -/
def isProcessableContent (contentType : Str) : Bool :=
  [("text/html".data), ("text/plain".data), ("text/css".data), ("text/javascript".data),
   ("application/javascript".data), ("application/json".data), ("application/xml".data),
   ("text/xml".data), ("image/".data), ("font/".data), ("application/font".data),
   ("application/octet-stream".data)].any (fun t => containsSubstr contentType t)

/-- JavaScript `a || b` over optional strings (empty string falsy). -/
def jsOrStr (a b : Option Str) : Option Str :=
  match a with
  | some v => if v = [] then b else some v
  | none => b

/-- Truthiness of an optional string. -/
def isTruthyStr : Option Str → Bool
  | some v => v ≠ []
  | none => false

/-- The client-controllable inputs of the proxy endpoint. -/
structure ProxyReq where
  queryUrl : Option Str
  bodyUrl : Option Str
  encodedFlag : Bool
  secure : Bool
  host : Str

/-- The target URL after the optional Base64 decoding step (the value of the
`targetUrl` variable at the validation point). -/
def targetAfterDecode (r : ProxyReq) : Option Str :=
  let t := jsOrStr r.queryUrl r.bodyUrl
  if r.encodedFlag ∧ isTruthyStr t then t.map decodeUrl else t

/-- The URL the proxy endpoint fetches, or `none` when the handler throws
`InvalidUrlError` instead (`!targetUrl || !isValidUrl(targetUrl)`). -/
def proxyFetchTarget (r : ProxyReq) : Option Str :=
  match targetAfterDecode r with
  | some t => if t ≠ [] ∧ isValidUrl t then some t else none
  | none => none

/-- `contentType` of the proxy handler:
`targetResponse.headers.get('content-type') || 'text/html'`. -/
def proxyContentType (resp : FetchOk) : Str :=
  match headerGet resp.headers ("content-type".data) with
  | some v => if v = [] then ("text/html".data) else v
  | none => ("text/html".data)

/-- Embeds `handleProxyRequest` of `src/handlers/proxyHandler.js` as a
function of the request, an abstract fetch outcome, and the clock values
(`timestamp` for the error envelope, `fetchMs` for the metadata).  Returns
the HTTP status and JSON body sent to the client. -/
def handleProxyRequest (r : ProxyReq) (fetchFn : Str → FetchOutcome)
    (timestamp : Str) (fetchMs : Nat) : Nat × RespBody :=
  match proxyFetchTarget r with
  | none => errorMiddleware (invalidUrlError (targetAfterDecode r)) timestamp
  | some target =>
      match fetchFn target with
      | .fail e =>
          if e.name = ("FetchError".data) ∨ e.code ≠ [] then
            errorMiddleware (networkError e (jsOrStr r.queryUrl r.bodyUrl)) timestamp
          else
            (500, .failure ("INTERNAL_ERROR".data)
              (if e.message = [] then ("An unexpected error occurred".data) else e.message)
              timestamp none)
      | .ok resp =>
          let finalUrl := if resp.finalUrl = [] then target else resp.finalUrl
          let ct := proxyContentType resp
          if ¬ isProcessableContent ct then
            errorMiddleware
              (contentError ct ("This content type cannot be displayed in the browser".data))
              timestamp
          else if resp.body.length > maxResponseSize then
            errorMiddleware (contentError ct ("Response is too large to process".data)) timestamp
          else
            let proxyBase :=
              (if r.secure then ("https".data) else ("http".data)) ++ ("://".data) ++ r.host
            let content :=
              if containsSubstr ct ("text/html".data) then
                transformHtml resp.body finalUrl proxyBase
              else resp.body
            (200, .success
              { url := finalUrl
                domain := extractDomain finalUrl
                statusCode := resp.status
                contentType := ct
                contentLength := content.length
                fetchTimeMs := fetchMs }
              (buildResponseHeaders resp.headers) content)

/-! ## proxyHandler.js: the resource relay -/

/-- The CSS `url()` replacement of `handleResourceRequest` (inline proxy URL
construction, resolved against the requested target URL itself). -/
def cssReplRelay (targetUrl proxyBase : Str) (matched v : Str) : Str :=
  match resolveUrl (jsTrim v) targetUrl with
  | none => matched
  | some r =>
      ("url(\x22".data) ++ proxyBase ++ ("/api/resource?url=".data) ++
        encodeURIComponent r ++ ("\x22)".data)

/-- Matcher for `/@import\s+["']([^"']+)["']/gi` at the current position. -/
def tryImportAt (s : Str) : Option (Str × Str × Str) :=
  if ciBegins ("@import".data) s then
    let u0 := s.drop 7
    let w := u0.takeWhile isJsSpace
    if w = [] then none
    else
      match u0.drop w.length with
      | q :: rest =>
          if isQuote q then
            let v := rest.takeWhile (fun c => ¬ isQuote c)
            if v = [] then none
            else
              match rest.drop v.length with
              | q2 :: rem => some (s.take 7 ++ w ++ (q :: v) ++ (q2 :: []), v, rem)
              | [] => none
          else none
      | [] => none
  else none

/-- Leftmost repeated replacement for the `@import` pass. -/
def scanImport (rf : Str → Str → Str) : Nat → Str → Str
  | _, [] => []
  | 0, s => s
  | fuel + 1, c :: rest =>
      match tryImportAt (c :: rest) with
      | some (matched, v, rem) => rf matched v ++ scanImport rf fuel rem
      | none => c :: scanImport rf fuel rest

/-- The `@import` replacement of `handleResourceRequest`. -/
def importReplRelay (targetUrl proxyBase : Str) (matched v : Str) : Str :=
  match resolveUrl (jsTrim v) targetUrl with
  | none => matched
  | some r =>
      ("@import \x22".data) ++ proxyBase ++ ("/api/resource?url=".data) ++
        encodeURIComponent r ++ ("\x22".data)

/-- The CSS rewriting done by the relay: the `url()` pass, then the
`@import` pass. -/
def relayCssRewrite (css targetUrl proxyBase : Str) : Str :=
  let c1 := scanCss (cssReplRelay targetUrl proxyBase) css.length css
  scanImport (importReplRelay targetUrl proxyBase) c1.length c1

/-- Response of the resource endpoint: status, the `Content-Type` header it
sets (none on the 400/500 paths), the payload, and whether the payload was
sent as a binary buffer. -/
structure ResourceResp where
  status : Nat
  contentType : Option Str
  body : Str
  asBuffer : Bool
deriving Repr, DecidableEq

/-- The URL the resource endpoint fetches: the decoded `url` query
parameter, with no validation applied; `none` when the parameter is missing
(400) or its decoding throws (caught as a 500).  Mirrors lines 395-413 of
`src/handlers/proxyHandler.js`. -/
def resourceFetchTarget (queryUrl : Option Str) : Option Str :=
  match queryUrl with
  | none => none
  | some u => if u = [] then none else decodeURIComponentJs u

/-- The `contentType` default of the resource relay:
`targetResponse.headers.get('content-type') || 'application/octet-stream'`. -/
def relayContentType (resp : FetchOk) : Str :=
  match headerGet resp.headers ("content-type".data) with
  | some v => if v = [] then ("application/octet-stream".data) else v
  | none => ("application/octet-stream".data)

/-- Embeds `handleResourceRequest` of `src/handlers/proxyHandler.js`. -/
def handleResourceRequest (queryUrl : Option Str) (secure : Bool) (host : Str)
    (fetchFn : Str → FetchOutcome) : ResourceResp :=
  match queryUrl with
  | none => ⟨400, none, ("URL parameter required".data), false⟩
  | some u =>
      if u = [] then ⟨400, none, ("URL parameter required".data), false⟩
      else
        match decodeURIComponentJs u with
        | none => ⟨500, none, ("Failed to fetch resource".data), false⟩
        | some target =>
            match fetchFn target with
            | .fail _ => ⟨500, none, ("Failed to fetch resource".data), false⟩
            | .ok resp =>
                let ct := relayContentType resp
                if containsSubstr ct ("text/css".data) then
                  let proxyBase :=
                    (if secure then ("https".data) else ("http".data)) ++ ("://".data) ++ host
                  ⟨200, some ct, relayCssRewrite resp.body target proxyBase, false⟩
                else if containsSubstr ct ("javascript".data) ∨
                    containsSubstr ct ("text/".data) then
                  ⟨200, some ct, resp.body, false⟩
                else
                  ⟨200, some ct, resp.body, true⟩

/-! ## server.js API endpoints -/

/-- Body of the `/api/decode` JSON response. -/
inductive DecodeResp where
  | err (msg : Str)
  | ok (encoded decoded : Str)
deriving Repr, DecidableEq

/-- Embeds the `POST /api/decode` route of `server.js`: 400 only when
`encoded` is missing or empty; otherwise 200 with `decodeUrl` applied (which
never throws). -/
def apiDecode (encoded : Option Str) : Nat × DecodeResp :=
  match encoded with
  | none => (400, .err ("No encoded URL provided".data))
  | some e =>
      if e = [] then (400, .err ("No encoded URL provided".data))
      else (200, .ok e (decodeUrl e))

/-! ## Scan lemmas for the rewrite passes -/

/-- No suffix of `s` is matched by `f` (so a scan leaves `s` unchanged). -/
def noMatchOpt {α : Type} (f : Str → Option α) : Str → Bool
  | [] => true
  | c :: r => (f (c :: r)).isNone && noMatchOpt f r

theorem scanA_of_noMatch (f : Str → Option AttrMatch) (rp : AttrMatch → Str) :
    ∀ (fuel : Nat) (s : Str), noMatchOpt f s = true → scanA f rp fuel s = s := by
  intro fuel
  induction fuel with
  | zero => intro s _; cases s <;> rfl
  | succ n ih =>
      intro s hs
      cases s with
      | nil => rfl
      | cons c r =>
          rw [noMatchOpt] at hs
          simp only [Bool.and_eq_true, Option.isNone_iff_eq_none] at hs
          rw [scanA, hs.1]
          rw [ih r hs.2]

theorem scanCss_of_noMatch (rf : Str → Str → Str) :
    ∀ (fuel : Nat) (s : Str), noMatchOpt tryCssAt s = true → scanCss rf fuel s = s := by
  intro fuel
  induction fuel with
  | zero => intro s _; cases s <;> rfl
  | succ n ih =>
      intro s hs
      cases s with
      | nil => rfl
      | cons c r =>
          rw [noMatchOpt] at hs
          simp only [Bool.and_eq_true, Option.isNone_iff_eq_none] at hs
          rw [scanCss, hs.1]
          rw [ih r hs.2]

theorem scanImport_of_noMatch (rf : Str → Str → Str) :
    ∀ (fuel : Nat) (s : Str), noMatchOpt tryImportAt s = true → scanImport rf fuel s = s := by
  intro fuel
  induction fuel with
  | zero => intro s _; cases s <;> rfl
  | succ n ih =>
      intro s hs
      cases s with
      | nil => rfl
      | cons c r =>
          rw [noMatchOpt] at hs
          simp only [Bool.and_eq_true, Option.isNone_iff_eq_none] at hs
          rw [scanImport, hs.1]
          rw [ih r hs.2]

theorem tryMatchAttr_not_lt (attr : Str) (c : Char) (t : Str) (h : c ≠ '<') :
    tryMatchAttr attr (c :: t) = none := by
  rw [tryMatchAttr.eq_def]
  split
  · next heq => cases heq; exact absurd rfl h
  · rfl

theorem tryMatchLitAttr_not_lt (lit attr : Str) (c : Char) (t : Str) (h : c ≠ '<') :
    tryMatchLitAttr lit attr (c :: t) = none := by
  rw [tryMatchLitAttr.eq_def]
  split
  · next heq => cases heq; exact absurd rfl h
  · rfl

theorem noMatchOpt_of_no_lt {α : Type} (f : Str → Option α)
    (hf : ∀ (c : Char) (t : Str), c ≠ '<' → f (c :: t) = none) :
    ∀ s : Str, (∀ c ∈ s, c ≠ '<') → noMatchOpt f s = true := by
  intro s
  induction s with
  | nil => intro _; rfl
  | cons c r ih =>
      intro h
      rw [noMatchOpt, hf c r (h c (by simp)), ih (fun d hd => h d (by simp [hd]))]
      rfl

theorem scanA_pre (f : Str → Option AttrMatch) (rp : AttrMatch → Str)
    (hf : ∀ (c : Char) (t : Str), c ≠ '<' → f (c :: t) = none) :
    ∀ (pre : Str) (fuel : Nat) (s : Str), (∀ c ∈ pre, c ≠ '<') →
      scanA f rp (pre.length + fuel) (pre ++ s) = pre ++ scanA f rp fuel s := by
  intro pre
  induction pre with
  | nil => intro fuel s _; simp
  | cons c cs ih =>
      intro fuel s h
      have hc : c ≠ '<' := h c (by simp)
      rw [show (c :: cs).length + fuel = (cs.length + fuel) + 1 from by simp; omega]
      rw [List.cons_append, scanA, hf c _ hc]
      show c :: scanA f rp (cs.length + fuel) (cs ++ s) = _
      rw [ih fuel s (fun d hd => h d (by simp [hd]))]
      rfl

theorem scanA_one_match (f : Str → Option AttrMatch) (rp : AttrMatch → Str)
    (hf : ∀ (c : Char) (t : Str), c ≠ '<' → f (c :: t) = none)
    (pre T : Str) (m : AttrMatch)
    (hpre : ∀ c ∈ pre, c ≠ '<')
    (hm : f ('<' :: T) = some m)
    (hpost : noMatchOpt f m.rest = true) :
    scanA f rp (pre ++ ('<' :: T)).length (pre ++ ('<' :: T)) = pre ++ (rp m ++ m.rest) := by
  rw [show (pre ++ ('<' :: T)).length = pre.length + (T.length + 1) from by simp]
  rw [scanA_pre f rp hf pre (T.length + 1) ('<' :: T) hpre]
  rw [scanA, hm]
  show pre ++ (rp m ++ scanA f rp T.length m.rest) = _
  rw [scanA_of_noMatch f rp T.length m.rest hpost]

theorem ciBegins_self_append (a r : Str) : ciBegins a (a ++ r) = true := by
  induction a with
  | nil => rfl
  | cons c cs ih => simp [ciBegins, ih]

theorem takeWhile_all_append (p : Char → Bool) (xs : Str) (y : Char) (r : Str)
    (hx : ∀ x ∈ xs, p x = true) (hy : p y = false) :
    (xs ++ y :: r).takeWhile p = xs := by
  induction xs with
  | nil => simp [List.takeWhile_cons, hy]
  | cons c cs ih =>
      rw [List.cons_append, List.takeWhile_cons_of_pos (hx c (by simp))]
      rw [ih (fun x hx2 => hx x (by simp [hx2]))]

theorem candIdxs_skip_chunk (attr : Str) (x rest : Str)
    (hx : ∀ c ∈ x, ¬(isJsSpace c = true) ∧ c ≠ '>') :
    candIdxs attr (x ++ rest) = (candIdxs attr rest).map (· + x.length) := by
  induction x with
  | nil => simp
  | cons c cs ih =>
      rw [List.cons_append, candIdxs]
      have hc := hx c (by simp)
      rw [if_neg (by simp [hc.1]), if_neg (by simp [hc.2])]
      rw [ih (fun d hd => hx d (by simp [hd]))]
      simp [List.map_map, Function.comp]

theorem candIdxs_cons_nospace (attr : Str) (c : Char) (rest : Str)
    (h1 : ¬(isJsSpace c = true)) (h2 : c ≠ '>') :
    candIdxs attr (c :: rest) = (candIdxs attr rest).map (· + 1) := by
  rw [candIdxs, if_neg (by simp [h1]), if_neg (by simp [h2])]
  rfl

theorem candIdxs_at_space (attr : Str) (rest : Str)
    (hattr : ciBegins attr rest = true) (hq : headIsQuote (rest.drop attr.length) = true) :
    candIdxs attr (' ' :: rest) = 0 :: (candIdxs attr rest).map (· + 1) := by
  rw [candIdxs]
  rw [if_pos (by simp [isJsSpace, hattr, hq])]
  rw [if_neg (by decide)]
  rfl

theorem candIdxs_stop (attr : Str) (post : Str) : candIdxs attr ('>' :: post) = [] := by
  rw [candIdxs]
  rw [if_neg (by simp [isJsSpace]), if_pos rfl]
  rfl

theorem candIdxs_tag (attr mid url post : Str)
    (hattr : ∀ c ∈ attr, ¬(isJsSpace c = true) ∧ c ≠ '>')
    (hmid : ∀ c ∈ mid, ¬(isJsSpace c = true) ∧ c ≠ '>')
    (hurl : ∀ c ∈ url, ¬(isJsSpace c = true) ∧ c ≠ '>') :
    candIdxs attr (mid ++ (' ' :: (attr ++ ('"' :: (url ++ ('"' :: ('>' :: post))))))) =
      [mid.length] := by
  rw [candIdxs_skip_chunk attr mid _ hmid]
  rw [candIdxs_at_space attr _ (ciBegins_self_append attr _)
    (by rw [List.drop_left]; rfl)]
  rw [candIdxs_skip_chunk attr attr _ hattr]
  rw [candIdxs_cons_nospace attr '"' _ (by decide) (by decide)]
  rw [candIdxs_skip_chunk attr url _ hurl]
  rw [candIdxs_cons_nospace attr '"' _ (by decide) (by decide)]
  rw [candIdxs_stop]
  simp

theorem filteredCands_tag (attr mid url post : Str)
    (hattr : ∀ c ∈ attr, ¬(isJsSpace c = true) ∧ c ≠ '>')
    (hmid_ne : mid ≠ [])
    (hmid : ∀ c ∈ mid, ¬(isJsSpace c = true) ∧ c ≠ '>')
    (hurl : ∀ c ∈ url, ¬(isJsSpace c = true) ∧ c ≠ '>') :
    (candIdxs attr (mid ++ (' ' :: (attr ++ ('"' :: (url ++ ('"' :: ('>' :: post)))))))).filter
      (fun i => decide (1 ≤ i)) = [mid.length] := by
  rw [candIdxs_tag attr mid url post hattr hmid hurl]
  have hlen : 1 ≤ mid.length := List.length_pos.mpr hmid_ne
  simp [List.filter, hlen]

theorem filteredCands_tag_spaced (attr mid' url post : Str)
    (hattr : ∀ c ∈ attr, ¬(isJsSpace c = true) ∧ c ≠ '>')
    (hmid : ∀ c ∈ mid', ¬(isJsSpace c = true) ∧ c ≠ '>')
    (hurl : ∀ c ∈ url, ¬(isJsSpace c = true) ∧ c ≠ '>') :
    (candIdxs attr
      ((' ' :: mid') ++ (' ' :: (attr ++ ('"' :: (url ++ ('"' :: ('>' :: post)))))))).filter
      (fun i => decide (1 ≤ i)) = [(' ' :: mid').length] := by
  rw [List.cons_append, candIdxs]
  rw [if_neg (show ¬(' ' = '>') from by decide)]
  rw [candIdxs_tag attr mid' url post hattr hmid hurl]
  split_ifs with h
  · simp [List.filter]
  · simp [List.filter]

theorem matchCore_tag (attr mid url post : Str)
    (hcand : (candIdxs attr
      (mid ++ (' ' :: (attr ++ ('"' :: (url ++ ('"' :: ('>' :: post)))))))).filter
      (fun i => decide (1 ≤ i)) = [mid.length])
    (hurl_ne : url ≠ [])
    (hurl : ∀ c ∈ url, isQuote c = false) :
    matchCore attr (mid ++ (' ' :: (attr ++ ('"' :: (url ++ ('"' :: ('>' :: post))))))) =
      some ⟨mid ++ (' ' :: (attr ++ ('"' :: []))), url, '"' :: ('>' :: []), post⟩ := by
  rw [matchCore, hcand]
  rw [pickLast, pickLast]
  show attemptAt attr _ mid.length = _
  rw [attemptAt]
  have hsplit : mid ++ (' ' :: (attr ++ ('"' :: (url ++ ('"' :: ('>' :: post)))))) =
      (mid ++ (' ' :: (attr ++ ('"' :: [])))) ++ (url ++ ('"' :: ('>' :: post))) := by
    simp
  have hblen : (mid ++ (' ' :: (attr ++ ('"' :: [])))).length =
      mid.length + 1 + attr.length + 1 := by
    simp
    omega
  rw [hsplit]
  rw [List.drop_left' hblen, List.take_left' hblen]
  rw [takeWhile_all_append _ url '"' _ (fun c hc => by simp [hurl c hc]) (by decide)]
  rw [if_neg hurl_ne]
  rw [List.drop_left]
  simp [List.takeWhile_cons_of_neg]

theorem tryMatchAttr_tag (attr mid url post : Str)
    (hattr : ∀ c ∈ attr, ¬(isJsSpace c = true) ∧ c ≠ '>')
    (hmid_ne : mid ≠ [])
    (hmid : ∀ c ∈ mid, ¬(isJsSpace c = true) ∧ c ≠ '>')
    (hurl_ne : url ≠ [])
    (hurl : ∀ c ∈ url, ¬(isJsSpace c = true) ∧ c ≠ '>' ∧ isQuote c = false) :
    tryMatchAttr attr
      ('<' :: (mid ++ (' ' :: (attr ++ ('"' :: (url ++ ('"' :: ('>' :: post)))))))) =
      some ⟨'<' :: (mid ++ (' ' :: (attr ++ ('"' :: [])))), url, '"' :: ('>' :: []), post⟩ := by
  show (matchCore attr _).map _ = _
  rw [matchCore_tag attr mid url post
    (filteredCands_tag attr mid url post hattr hmid_ne hmid
      (fun c hc => ⟨(hurl c hc).1, (hurl c hc).2.1⟩))
    hurl_ne (fun c hc => (hurl c hc).2.2)]
  rfl

theorem tryMatchLitAttr_tag (lit attr mid' url post : Str)
    (hattr : ∀ c ∈ attr, ¬(isJsSpace c = true) ∧ c ≠ '>')
    (hmid : ∀ c ∈ mid', ¬(isJsSpace c = true) ∧ c ≠ '>')
    (hurl_ne : url ≠ [])
    (hurl : ∀ c ∈ url, ¬(isJsSpace c = true) ∧ c ≠ '>' ∧ isQuote c = false) :
    tryMatchLitAttr lit attr
      ('<' :: (lit ++
        ((' ' :: mid') ++ (' ' :: (attr ++ ('"' :: (url ++ ('"' :: ('>' :: post))))))))) =
      some ⟨'<' :: (lit ++ ((' ' :: mid') ++ (' ' :: (attr ++ ('"' :: []))))), url,
        '"' :: ('>' :: []), post⟩ := by
  show (if ciBegins lit _ then (matchCore attr _).map _ else none) = _
  rw [if_pos (ciBegins_self_append lit _)]
  rw [List.drop_left]
  rw [matchCore_tag attr (' ' :: mid') url post
    (filteredCands_tag_spaced attr mid' url post hattr hmid
      (fun c hc => ⟨(hurl c hc).1, (hurl c hc).2.1⟩))
    hurl_ne (fun c hc => (hurl c hc).2.2)]
  rw [List.take_left]
  rfl

theorem dropWhile_nospace_eq_self (s : Str) (h : ∀ c ∈ s, ¬(isJsSpace c = true)) :
    s.dropWhile isJsSpace = s := by
  cases s with
  | nil => rfl
  | cons c r => exact List.dropWhile_cons_of_neg (h c (by simp))

theorem jsTrim_eq_self (s : Str) (h : ∀ c ∈ s, ¬(isJsSpace c = true)) : jsTrim s = s := by
  rw [jsTrim, dropWhile_nospace_eq_self s h]
  rw [dropWhile_nospace_eq_self s.reverse (fun c hc => h c (by simpa using hc))]
  exact List.reverse_reverse s

def attrTagDoc (pre tagName attr val post : Str) : Str :=
  pre ++ ('<' :: (tagName ++ (' ' :: (attr ++ ('"' :: (val ++ ('"' :: ('>' :: post))))))))

def proxiedResourceUrl (pb rr : Str) : Str :=
  pb ++ ("/api/resource?url=".data) ++ encodeURIComponent rr

theorem src_rewrite_core (pre tagName url post base pb rr : Str)
    (h1 : tagName ≠ [])
    (h2 : ∀ c ∈ tagName, ¬(isJsSpace c = true) ∧ c ≠ '>')
    (h3 : url ≠ [])
    (h4 : ∀ c ∈ url, ¬(isJsSpace c = true) ∧ c ≠ '>' ∧ isQuote c = false)
    (h5 : ∀ c ∈ pre, c ≠ '<')
    (h6 : ∀ c ∈ post, c ≠ '<')
    (h7 : resolveUrl url base = some rr)
    (h8 : rr ≠ []) :
    scanA (tryMatchAttr ("src=".data)) (attrRepl base pb)
      (attrTagDoc pre tagName ("src=".data) url post).length
      (attrTagDoc pre tagName ("src=".data) url post) =
      attrTagDoc pre tagName ("src=".data) (proxiedResourceUrl pb rr) post := by
  have hattr : ∀ c ∈ ("src=".data), ¬(isJsSpace c = true) ∧ c ≠ '>' := by decide
  have hm := tryMatchAttr_tag ("src=".data) tagName url post hattr h1 h2 h3 h4
  have hdoc : attrTagDoc pre tagName ("src=".data) url post =
      pre ++ ('<' :: (tagName ++ (' ' :: (("src=".data) ++
        ('"' :: (url ++ ('"' :: ('>' :: post)))))))) := rfl
  rw [hdoc]
  rw [scanA_one_match (tryMatchAttr ("src=".data)) (attrRepl base pb)
    (tryMatchAttr_not_lt ("src=".data)) pre _ _ h5 hm
    (noMatchOpt_of_no_lt _ (tryMatchAttr_not_lt ("src=".data)) post h6)]
  have hrepl : attrRepl base pb
      ⟨'<' :: (tagName ++ (' ' :: (("src=".data) ++ ('"' :: [])))), url, '"' :: ('>' :: []), post⟩ =
      ('<' :: (tagName ++ (' ' :: (("src=".data) ++ ('"' :: []))))) ++
        proxiedResourceUrl pb rr ++ ('"' :: ('>' :: [])) := by
    simp only [attrRepl, jsTrim_eq_self url (fun c hc => (h4 c hc).1), h7]
    simp only [makeProxyUrl, if_neg h8]
    rfl
  rw [hrepl]
  simp [attrTagDoc, proxiedResourceUrl]

theorem transformHtml_src_doc (pre tagName url post base pb rr : Str)
    (h1 : tagName ≠ [])
    (h2 : ∀ c ∈ tagName, ¬(isJsSpace c = true) ∧ c ≠ '>')
    (h3 : url ≠ [])
    (h4 : ∀ c ∈ url, ¬(isJsSpace c = true) ∧ c ≠ '>' ∧ isQuote c = false)
    (h5 : ∀ c ∈ pre, c ≠ '<')
    (h6 : ∀ c ∈ post, c ≠ '<')
    (h7 : resolveUrl url base = some rr)
    (h8 : rr ≠ [])
    (hL : noMatchOpt (tryMatchLitAttr ("link".data) ("href=".data))
      (attrTagDoc pre tagName ("src=".data) (proxiedResourceUrl pb rr) post) = true)
    (hF : noMatchOpt (tryMatchLitAttr ("form".data) ("action=".data))
      (attrTagDoc pre tagName ("src=".data) (proxiedResourceUrl pb rr) post) = true)
    (hS : noMatchOpt (tryMatchAttr ("srcset=".data))
      (attrTagDoc pre tagName ("src=".data) (proxiedResourceUrl pb rr) post) = true)
    (hC : noMatchOpt tryCssAt
      (attrTagDoc pre tagName ("src=".data) (proxiedResourceUrl pb rr) post) = true)
    (hH : hasHeadMatch
      (attrTagDoc pre tagName ("src=".data) (proxiedResourceUrl pb rr) post) = false) :
    transformHtml (attrTagDoc pre tagName ("src=".data) url post) base pb =
      baseTagFor base ++ ('\n' :: proxyInterceptScript pb base) ++
        ('\n' :: attrTagDoc pre tagName ("src=".data) (proxiedResourceUrl pb rr) post) := by
  simp only [transformHtml]
  rw [src_rewrite_core pre tagName url post base pb rr h1 h2 h3 h4 h5 h6 h7 h8]
  rw [scanA_of_noMatch _ _ _ _ hL]
  rw [scanA_of_noMatch _ _ _ _ hF]
  rw [scanA_of_noMatch _ _ _ _ hS]
  rw [scanCss_of_noMatch _ _ _ hC]
  rw [if_neg (by simp [hH])]

def litTagDoc (pre lit mid attr val post : Str) : Str :=
  pre ++ ('<' :: (lit ++ ((' ' :: mid) ++ (' ' :: (attr ++ ('"' :: (val ++ ('"' :: ('>' :: post)))))))))

theorem lit_rewrite_core (pre lit mid attr url post base pb rr : Str)
    (hattr : ∀ c ∈ attr, ¬(isJsSpace c = true) ∧ c ≠ '>')
    (hmid : ∀ c ∈ mid, ¬(isJsSpace c = true) ∧ c ≠ '>')
    (h3 : url ≠ [])
    (h4 : ∀ c ∈ url, ¬(isJsSpace c = true) ∧ c ≠ '>' ∧ isQuote c = false)
    (h5 : ∀ c ∈ pre, c ≠ '<')
    (h6 : ∀ c ∈ post, c ≠ '<')
    (h7 : resolveUrl url base = some rr)
    (h8 : rr ≠ []) :
    scanA (tryMatchLitAttr lit attr) (attrRepl base pb)
      (litTagDoc pre lit mid attr url post).length
      (litTagDoc pre lit mid attr url post) =
      litTagDoc pre lit mid attr (proxiedResourceUrl pb rr) post := by
  have hm := tryMatchLitAttr_tag lit attr mid url post hattr hmid h3 h4
  have hdoc : litTagDoc pre lit mid attr url post =
      pre ++ ('<' :: (lit ++ ((' ' :: mid) ++
        (' ' :: (attr ++ ('"' :: (url ++ ('"' :: ('>' :: post))))))))) := rfl
  rw [hdoc]
  rw [scanA_one_match (tryMatchLitAttr lit attr) (attrRepl base pb)
    (tryMatchLitAttr_not_lt lit attr) pre _ _ h5 hm
    (noMatchOpt_of_no_lt _ (tryMatchLitAttr_not_lt lit attr) post h6)]
  have hrepl : attrRepl base pb
      ⟨'<' :: (lit ++ ((' ' :: mid) ++ (' ' :: (attr ++ ('"' :: []))))), url,
        '"' :: ('>' :: []), post⟩ =
      ('<' :: (lit ++ ((' ' :: mid) ++ (' ' :: (attr ++ ('"' :: [])))))) ++
        proxiedResourceUrl pb rr ++ ('"' :: ('>' :: [])) := by
    simp only [attrRepl, jsTrim_eq_self url (fun c hc => (h4 c hc).1), h7]
    simp only [makeProxyUrl, if_neg h8]
    rfl
  rw [hrepl]
  simp [litTagDoc, proxiedResourceUrl]

theorem transformHtml_link_doc (pre mid url post base pb rr : Str)
    (hmid : ∀ c ∈ mid, ¬(isJsSpace c = true) ∧ c ≠ '>')
    (h3 : url ≠ [])
    (h4 : ∀ c ∈ url, ¬(isJsSpace c = true) ∧ c ≠ '>' ∧ isQuote c = false)
    (h5 : ∀ c ∈ pre, c ≠ '<')
    (h6 : ∀ c ∈ post, c ≠ '<')
    (h7 : resolveUrl url base = some rr)
    (h8 : rr ≠ [])
    (hA : noMatchOpt (tryMatchAttr ("src=".data))
      (litTagDoc pre ("link".data) mid ("href=".data) url post) = true)
    (hF : noMatchOpt (tryMatchLitAttr ("form".data) ("action=".data))
      (litTagDoc pre ("link".data) mid ("href=".data) (proxiedResourceUrl pb rr) post) = true)
    (hS : noMatchOpt (tryMatchAttr ("srcset=".data))
      (litTagDoc pre ("link".data) mid ("href=".data) (proxiedResourceUrl pb rr) post) = true)
    (hC : noMatchOpt tryCssAt
      (litTagDoc pre ("link".data) mid ("href=".data) (proxiedResourceUrl pb rr) post) = true)
    (hH : hasHeadMatch
      (litTagDoc pre ("link".data) mid ("href=".data) (proxiedResourceUrl pb rr) post) = false) :
    transformHtml (litTagDoc pre ("link".data) mid ("href=".data) url post) base pb =
      baseTagFor base ++ ('\n' :: proxyInterceptScript pb base) ++
        ('\n' :: litTagDoc pre ("link".data) mid ("href=".data) (proxiedResourceUrl pb rr) post) := by
  simp only [transformHtml]
  rw [scanA_of_noMatch _ _ _ _ hA]
  rw [lit_rewrite_core pre ("link".data) mid ("href=".data) url post base pb rr
    (by decide) hmid h3 h4 h5 h6 h7 h8]
  rw [scanA_of_noMatch _ _ _ _ hF]
  rw [scanA_of_noMatch _ _ _ _ hS]
  rw [scanCss_of_noMatch _ _ _ hC]
  rw [if_neg (by simp [hH])]

theorem transformHtml_form_doc (pre mid url post base pb rr : Str)
    (hmid : ∀ c ∈ mid, ¬(isJsSpace c = true) ∧ c ≠ '>')
    (h3 : url ≠ [])
    (h4 : ∀ c ∈ url, ¬(isJsSpace c = true) ∧ c ≠ '>' ∧ isQuote c = false)
    (h5 : ∀ c ∈ pre, c ≠ '<')
    (h6 : ∀ c ∈ post, c ≠ '<')
    (h7 : resolveUrl url base = some rr)
    (h8 : rr ≠ [])
    (hA : noMatchOpt (tryMatchAttr ("src=".data))
      (litTagDoc pre ("form".data) mid ("action=".data) url post) = true)
    (hL : noMatchOpt (tryMatchLitAttr ("link".data) ("href=".data))
      (litTagDoc pre ("form".data) mid ("action=".data) url post) = true)
    (hS : noMatchOpt (tryMatchAttr ("srcset=".data))
      (litTagDoc pre ("form".data) mid ("action=".data) (proxiedResourceUrl pb rr) post) = true)
    (hC : noMatchOpt tryCssAt
      (litTagDoc pre ("form".data) mid ("action=".data) (proxiedResourceUrl pb rr) post) = true)
    (hH : hasHeadMatch
      (litTagDoc pre ("form".data) mid ("action=".data) (proxiedResourceUrl pb rr) post) = false) :
    transformHtml (litTagDoc pre ("form".data) mid ("action=".data) url post) base pb =
      baseTagFor base ++ ('\n' :: proxyInterceptScript pb base) ++
        ('\n' :: litTagDoc pre ("form".data) mid ("action=".data) (proxiedResourceUrl pb rr) post) := by
  simp only [transformHtml]
  rw [scanA_of_noMatch _ _ _ _ hA]
  rw [scanA_of_noMatch _ _ _ _ hL]
  rw [lit_rewrite_core pre ("form".data) mid ("action=".data) url post base pb rr
    (by decide) hmid h3 h4 h5 h6 h7 h8]
  rw [scanA_of_noMatch _ _ _ _ hS]
  rw [scanCss_of_noMatch _ _ _ hC]
  rw [if_neg (by simp [hH])]

theorem lit_skip_core (pre lit mid attr v post base pb : Str)
    (hattr : ∀ c ∈ attr, ¬(isJsSpace c = true) ∧ c ≠ '>')
    (hmid : ∀ c ∈ mid, ¬(isJsSpace c = true) ∧ c ≠ '>')
    (h3 : v ≠ [])
    (h4 : ∀ c ∈ v, ¬(isJsSpace c = true) ∧ c ≠ '>' ∧ isQuote c = false)
    (h5 : ∀ c ∈ pre, c ≠ '<')
    (h6 : ∀ c ∈ post, c ≠ '<')
    (h7 : resolveUrl v base = none) :
    scanA (tryMatchLitAttr lit attr) (attrRepl base pb)
      (litTagDoc pre lit mid attr v post).length
      (litTagDoc pre lit mid attr v post) =
      litTagDoc pre lit mid attr v post := by
  have hm := tryMatchLitAttr_tag lit attr mid v post hattr hmid h3 h4
  have hdoc : litTagDoc pre lit mid attr v post =
      pre ++ ('<' :: (lit ++ ((' ' :: mid) ++
        (' ' :: (attr ++ ('"' :: (v ++ ('"' :: ('>' :: post))))))))) := rfl
  rw [hdoc]
  rw [scanA_one_match (tryMatchLitAttr lit attr) (attrRepl base pb)
    (tryMatchLitAttr_not_lt lit attr) pre _ _ h5 hm
    (noMatchOpt_of_no_lt _ (tryMatchLitAttr_not_lt lit attr) post h6)]
  have hrepl : attrRepl base pb
      ⟨'<' :: (lit ++ ((' ' :: mid) ++ (' ' :: (attr ++ ('"' :: []))))), v,
        '"' :: ('>' :: []), post⟩ =
      ('<' :: (lit ++ ((' ' :: mid) ++ (' ' :: (attr ++ ('"' :: [])))))) ++ v ++
        ('"' :: ('>' :: [])) := by
    simp only [attrRepl, jsTrim_eq_self v (fun c hc => (h4 c hc).1), h7]
  rw [hrepl]
  simp

theorem resolveUrl_special_prefixes (v base : Str)
    (h : List.isPrefixOf ("#".data) v = true ∨ List.isPrefixOf ("javascript:".data) v = true ∨
      List.isPrefixOf ("data:".data) v = true ∨ List.isPrefixOf ("mailto:".data) v = true ∨
      List.isPrefixOf ("tel:".data) v = true) :
    resolveUrl v base = none := by
  have hhead : ∃ (c : Char) (t : Str), v = c :: t ∧ c ≠ '/' := by
    rcases h with h | h | h | h | h <;>
      · rw [List.isPrefixOf_iff_prefix] at h
        obtain ⟨t2, rfl⟩ := h
        exact ⟨_, _, rfl, by decide⟩
  obtain ⟨c, t, rfl, hc⟩ := hhead
  rw [resolveUrl]
  rw [if_neg (by simp [List.isPrefixOf]; intro hc2; exact absurd hc2.symm hc)]
  rw [if_pos]
  rcases h with h | h | h | h | h <;> simp [h]

theorem transformHtml_untouched (doc base pb : Str)
    (hA : noMatchOpt (tryMatchAttr ("src=".data)) doc = true)
    (hL : noMatchOpt (tryMatchLitAttr ("link".data) ("href=".data)) doc = true)
    (hF : noMatchOpt (tryMatchLitAttr ("form".data) ("action=".data)) doc = true)
    (hS : noMatchOpt (tryMatchAttr ("srcset=".data)) doc = true)
    (hC : noMatchOpt tryCssAt doc = true)
    (hH : hasHeadMatch doc = false) :
    transformHtml doc base pb =
      baseTagFor base ++ ('\n' :: proxyInterceptScript pb base) ++ ('\n' :: doc) := by
  simp only [transformHtml]
  rw [scanA_of_noMatch _ _ _ _ hA]
  rw [scanA_of_noMatch _ _ _ _ hL]
  rw [scanA_of_noMatch _ _ _ _ hF]
  rw [scanA_of_noMatch _ _ _ _ hS]
  rw [scanCss_of_noMatch _ _ _ hC]
  rw [if_neg (by simp [hH])]

theorem transformHtml_link_skip (pre mid v post base pb : Str)
    (hmid : ∀ c ∈ mid, ¬(isJsSpace c = true) ∧ c ≠ '>')
    (h3 : v ≠ [])
    (h4 : ∀ c ∈ v, ¬(isJsSpace c = true) ∧ c ≠ '>' ∧ isQuote c = false)
    (h5 : ∀ c ∈ pre, c ≠ '<')
    (h6 : ∀ c ∈ post, c ≠ '<')
    (h7 : List.isPrefixOf ("#".data) v = true ∨ List.isPrefixOf ("javascript:".data) v = true ∨
      List.isPrefixOf ("data:".data) v = true ∨ List.isPrefixOf ("mailto:".data) v = true ∨
      List.isPrefixOf ("tel:".data) v = true)
    (hA : noMatchOpt (tryMatchAttr ("src=".data))
      (litTagDoc pre ("link".data) mid ("href=".data) v post) = true)
    (hF : noMatchOpt (tryMatchLitAttr ("form".data) ("action=".data))
      (litTagDoc pre ("link".data) mid ("href=".data) v post) = true)
    (hS : noMatchOpt (tryMatchAttr ("srcset=".data))
      (litTagDoc pre ("link".data) mid ("href=".data) v post) = true)
    (hC : noMatchOpt tryCssAt
      (litTagDoc pre ("link".data) mid ("href=".data) v post) = true)
    (hH : hasHeadMatch (litTagDoc pre ("link".data) mid ("href=".data) v post) = false) :
    transformHtml (litTagDoc pre ("link".data) mid ("href=".data) v post) base pb =
      baseTagFor base ++ ('\n' :: proxyInterceptScript pb base) ++
        ('\n' :: litTagDoc pre ("link".data) mid ("href=".data) v post) := by
  simp only [transformHtml]
  rw [scanA_of_noMatch _ _ _ _ hA]
  rw [lit_skip_core pre ("link".data) mid ("href=".data) v post base pb
    (by decide) hmid h3 h4 h5 h6 (resolveUrl_special_prefixes v base h7)]
  rw [scanA_of_noMatch _ _ _ _ hF]
  rw [scanA_of_noMatch _ _ _ _ hS]
  rw [scanCss_of_noMatch _ _ _ hC]
  rw [if_neg (by simp [hH])]

theorem containsSubstr_append_right (s t pat : Str) (h : containsSubstr t pat = true) :
    containsSubstr (s ++ t) pat = true := by
  induction s with
  | nil => simpa using h
  | cons c cs ih =>
      rw [List.cons_append, containsSubstr]
      simp [ih]

/-- Claim C9, counterexample: the token !!!! consists only of characters
outside the URL-safe Base64 alphabet, yet POST /api/decode answers 200 with
a success body (the decoded string is empty), not the 400 the claim
requires. -/
theorem apiDecode_malformed_returns_200 :
    apiDecode (some ("!!!!".data)) = (200, DecodeResp.ok ("!!!!".data) []) ∧ (200 : Nat) ≠ 400 := by
  constructor
  · rfl
  · decide

/-- Claim C9, amended: `decodeUrl` is total and never signals failure (the
Base64 decoder skips foreign characters and invalid UTF-8 becomes
replacement characters), and POST /api/decode responds 400 only when the
`encoded` field is missing or empty; every nonempty token, malformed or
not, yields 200 with the decoded string. -/
theorem apiDecode_total_and_400_only_when_missing :
    (∀ e : Str, e ≠ [] → apiDecode (some e) = (200, DecodeResp.ok e (decodeUrl e))) ∧
    apiDecode none = (400, DecodeResp.err ("No encoded URL provided".data)) ∧
    apiDecode (some []) = (400, DecodeResp.err ("No encoded URL provided".data)) := by
  refine ⟨?_, rfl, rfl⟩
  intro e he
  rw [apiDecode, if_neg he]

/-- Witness for the C9 theorem at the concrete token QQ. -/
theorem apiDecode_total_and_400_only_when_missing_witness :
    ("QQ".data ≠ ([] : Str)) ∧
    apiDecode (some ("QQ".data)) = (200, DecodeResp.ok ("QQ".data) (decodeUrl ("QQ".data))) :=
  ⟨by decide, apiDecode_total_and_400_only_when_missing.1 ("QQ".data) (by decide)⟩

/-- Claim C1, counterexample: the resource endpoint fetches the blocked
loopback URL http://localhost/x — `resourceFetchTarget` yields it although
`isValidUrl` rejects it, and `handleResourceRequest` happily relays the
fetched body with status 200.  So a fetch is issued for a URL that fails
validation, contradicting the claim. -/
theorem resource_endpoint_fetches_invalid_url :
    resourceFetchTarget (some ("http://localhost/x".data)) = some ("http://localhost/x".data) ∧
    isValidUrl ("http://localhost/x".data) = false ∧
    handleResourceRequest (some ("http://localhost/x".data)) false ("proxy.test".data)
      (fun _ => .ok ⟨200, [], [], ("ok".data)⟩) =
      ⟨200, some ("application/octet-stream".data), ("ok".data), true⟩ := by
  refine ⟨by decide, by decide, by decide⟩

/-- Claim C1, amended: only the proxy endpoint validates the
client-supplied URL before fetching — every URL `handleProxyRequest`
fetches satisfies `isValidUrl` — while the resource endpoint issues its
fetch on the merely percent-decoded `url` parameter with no validation at
all (shown here for the private address http://10.0.0.5/a). -/
theorem proxy_validates_resource_does_not :
    (∀ (r : ProxyReq) (u : Str), proxyFetchTarget r = some u → isValidUrl u = true) ∧
    (resourceFetchTarget (some ("http://10.0.0.5/a".data)) = some ("http://10.0.0.5/a".data) ∧
      isValidUrl ("http://10.0.0.5/a".data) = false) := by
  constructor
  · intro r u h
    rw [proxyFetchTarget] at h
    cases ht : targetAfterDecode r with
    | none => rw [ht] at h; cases h
    | some t =>
        rw [ht] at h
        simp only [] at h
        split_ifs at h with hcond
        cases h
        exact hcond.2
  · exact ⟨by decide, by decide⟩

/-- Witness for the C1 theorem: the proxy endpoint fetches
https://example.org/ and that URL indeed passes validation. -/
theorem proxy_validates_resource_does_not_witness :
    proxyFetchTarget ⟨some ("https://example.org/".data), none, false, false, ("p".data)⟩ =
      some ("https://example.org/".data) ∧
    isValidUrl ("https://example.org/".data) = true :=
  ⟨by decide, proxy_validates_resource_does_not.1
    ⟨some ("https://example.org/".data), none, false, false, ("p".data)⟩
    ("https://example.org/".data) (by decide)⟩

/-- Claim C8, counterexample: the injected intercept script nowhere
mentions setAttribute, defineProperty or an element prototype such as
HTMLImageElement, so it cannot patch the src/href property setters nor wrap
Element.prototype.setAttribute as the claim states. -/
theorem intercept_script_lacks_prototype_patches :
    containsSubstr
      (proxyInterceptScript ("http://proxy.example".data) ("https://example.com/".data))
      ("setAttribute".data) = false ∧
    containsSubstr
      (proxyInterceptScript ("http://proxy.example".data) ("https://example.com/".data))
      ("defineProperty".data) = false ∧
    containsSubstr
      (proxyInterceptScript ("http://proxy.example".data) ("https://example.com/".data))
      ("HTMLImageElement".data) = false := by
  refine ⟨by decide, by decide, by decide⟩

/-- Claim C8, amended: the single script block `transformHtml` injects
wraps only `window.fetch` and `XMLHttpRequest.prototype.open`, with a
proxyUrl helper that skips data:, javascript: and blob: URLs; it contains
no element-prototype setter patches, no setAttribute wrapper, and no
proxy-base double-rewrite guard. -/
theorem intercept_script_wraps_fetch_and_xhr_only :
    (∀ pb bu : Str,
      containsSubstr (proxyInterceptScript pb bu)
        ("window.fetch = function(resource, init)".data) = true ∧
      containsSubstr (proxyInterceptScript pb bu)
        ("XMLHttpRequest.prototype.open = function(method, url, ...args)".data) = true ∧
      containsSubstr (proxyInterceptScript pb bu)
        ("url.startsWith(\x27data:\x27) || url.startsWith(\x27javascript:\x27) || url.startsWith(\x27blob:\x27)".data) = true) ∧
    (containsSubstr
      (proxyInterceptScript ("http://proxy.test".data) ("https://example.org/".data))
      ("setAttribute".data) = false ∧
     containsSubstr
      (proxyInterceptScript ("http://proxy.test".data) ("https://example.org/".data))
      ("Object.defineProperty".data) = false) := by
  constructor
  · intro pb bu
    refine ⟨?_, ?_, ?_⟩ <;>
      exact containsSubstr_append_right _ scriptPartC _ (by decide)
  · exact ⟨by decide, by decide⟩

/-- Claim C3: when the outbound fetch fails with error code ENOTFOUND, the
proxy endpoint responds 502 with the error envelope carrying code
DNS_LOOKUP_FAILED, the fixed message, explanation and suggestion list, the
timestamp, and the technical details; no success envelope is produced. -/
theorem dns_failure_gives_502 (r : ProxyReq) (fetchFn : Str → FetchOutcome)
    (ts : Str) (ms : Nat) (target : Str) (e : FetchErr)
    (hpt : proxyFetchTarget r = some target)
    (hf : fetchFn target = .fail e)
    (hcode : e.code = ("ENOTFOUND".data)) :
    handleProxyRequest r fetchFn ts ms =
      (502, RespBody.failure ("DNS_LOOKUP_FAILED".data)
        ("The website could not be found".data) ts
        (some (.network (jsOrStr r.queryUrl r.bodyUrl)
          ("The domain name could not be resolved to an IP address. This usually means the website does not exist or there is a DNS configuration issue.".data)
          e.message
          [("Check that the domain name is spelled correctly".data),
           ("Try accessing the website directly in your browser".data),
           ("The website might be temporarily unavailable".data)]))) ∧
    isSuccessResp (handleProxyRequest r fetchFn ts ms).2 = false := by
  have hmain : handleProxyRequest r fetchFn ts ms =
      errorMiddleware (networkError e (jsOrStr r.queryUrl r.bodyUrl)) ts := by
    rw [handleProxyRequest, hpt]
    simp only []
    rw [hf]
    simp only []
    rw [if_pos (Or.inr (by rw [hcode]; decide))]
  rw [hmain]
  rw [networkError]
  simp only [hcode]
  rw [if_neg (by decide)]
  rw [analyzeError]
  rw [if_pos rfl]
  exact ⟨rfl, rfl⟩

/-- Witness for the C3 theorem at a concrete DNS-failing request. -/
theorem dns_failure_gives_502_witness :
    proxyFetchTarget ⟨some ("https://nosuchdomain.example/".data), none, false, false,
      ("proxy.test".data)⟩ = some ("https://nosuchdomain.example/".data) ∧
    (handleProxyRequest
      ⟨some ("https://nosuchdomain.example/".data), none, false, false, ("proxy.test".data)⟩
      (fun _ => .fail ⟨("FetchError".data), ("ENOTFOUND".data),
        ("getaddrinfo ENOTFOUND nosuchdomain.example".data)⟩)
      ("2026-01-01T00:00:00.000Z".data) 12).1 = 502 := by
  constructor
  · decide
  · rw [(dns_failure_gives_502
      ⟨some ("https://nosuchdomain.example/".data), none, false, false, ("proxy.test".data)⟩
      (fun _ => .fail ⟨("FetchError".data), ("ENOTFOUND".data),
        ("getaddrinfo ENOTFOUND nosuchdomain.example".data)⟩)
      ("2026-01-01T00:00:00.000Z".data) 12 ("https://nosuchdomain.example/".data)
      ⟨("FetchError".data), ("ENOTFOUND".data),
        ("getaddrinfo ENOTFOUND nosuchdomain.example".data)⟩
      (by decide) rfl rfl).1]

/-- Claim C4: when the fetched body exceeds the 10 MiB ceiling, the proxy
endpoint responds 415 with error code UNSUPPORTED_CONTENT and never returns
a success envelope (whatever the content type). -/
theorem oversize_body_gives_415 (r : ProxyReq) (fetchFn : Str → FetchOutcome)
    (ts : Str) (ms : Nat) (target : Str) (resp : FetchOk)
    (hpt : proxyFetchTarget r = some target)
    (hf : fetchFn target = .ok resp)
    (hsize : resp.body.length > maxResponseSize) :
    (handleProxyRequest r fetchFn ts ms).1 = 415 ∧
    errCodeOf (handleProxyRequest r fetchFn ts ms).2 = some ("UNSUPPORTED_CONTENT".data) ∧
    isSuccessResp (handleProxyRequest r fetchFn ts ms).2 = false := by
  have hmain : handleProxyRequest r fetchFn ts ms =
      (if ¬ isProcessableContent (proxyContentType resp) then
        errorMiddleware
          (contentError (proxyContentType resp)
            ("This content type cannot be displayed in the browser".data)) ts
      else errorMiddleware
        (contentError (proxyContentType resp) ("Response is too large to process".data)) ts) := by
    rw [handleProxyRequest, hpt]
    simp only []
    rw [hf]
    simp only []
    split_ifs with h1
    · rfl
    · rfl
  rw [hmain]
  split_ifs with h1 <;>
    exact ⟨rfl, rfl, rfl⟩

/-- Witness for the C4 theorem with a body one byte over the ceiling. -/
theorem oversize_body_gives_415_witness :
    (FetchOk.mk 200 [] [] (List.replicate 10485761 'a')).body.length > maxResponseSize ∧
    (handleProxyRequest ⟨some ("https://example.org/big".data), none, false, false, ("p".data)⟩
      (fun _ => .ok ⟨200, [], [], List.replicate 10485761 'a'⟩) ([]) 0).1 = 415 := by
  have hsize : (FetchOk.mk 200 [] [] (List.replicate 10485761 'a')).body.length >
      maxResponseSize := by
    show (List.replicate 10485761 'a').length > maxResponseSize
    rw [List.length_replicate, maxResponseSize]
    norm_num
  refine ⟨hsize, ?_⟩
  exact (oversize_body_gives_415
    ⟨some ("https://example.org/big".data), none, false, false, ("p".data)⟩
    (fun _ => .ok ⟨200, [], [], List.replicate 10485761 'a'⟩) ([]) 0
    ("https://example.org/big".data) ⟨200, [], [], List.replicate 10485761 'a'⟩
    (by decide) rfl hsize).1

/-- Claim C10: a response with no Content-Type header is treated as
text/html — it passes the processable-content check, the body is rewritten
by `transformHtml`, and the success envelope reports text/html as the
content type. -/
theorem missing_content_type_treated_as_html (r : ProxyReq) (fetchFn : Str → FetchOutcome)
    (ts : Str) (ms : Nat) (target : Str) (resp : FetchOk)
    (hpt : proxyFetchTarget r = some target)
    (hf : fetchFn target = .ok resp)
    (hheader : headerGet resp.headers ("content-type".data) = none)
    (hsize : ¬(resp.body.length > maxResponseSize)) :
    handleProxyRequest r fetchFn ts ms =
      (200, RespBody.success
        { url := (if resp.finalUrl = [] then target else resp.finalUrl)
          domain := extractDomain (if resp.finalUrl = [] then target else resp.finalUrl)
          statusCode := resp.status
          contentType := ("text/html".data)
          contentLength := (transformHtml resp.body
            (if resp.finalUrl = [] then target else resp.finalUrl)
            ((if r.secure then ("https".data) else ("http".data)) ++ ("://".data) ++ r.host)).length
          fetchTimeMs := ms }
        (buildResponseHeaders resp.headers)
        (transformHtml resp.body (if resp.finalUrl = [] then target else resp.finalUrl)
          ((if r.secure then ("https".data) else ("http".data)) ++ ("://".data) ++ r.host))) := by
  have hct : proxyContentType resp = ("text/html".data) := by
    rw [proxyContentType, hheader]
  rw [handleProxyRequest, hpt]
  simp only []
  rw [hf]
  simp only [hct]
  rw [if_neg (show ¬(¬ isProcessableContent ("text/html".data) = true) from by decide)]
  rw [if_neg hsize]
  rw [if_pos (show containsSubstr ("text/html".data) ("text/html".data) = true from by decide)]

/-- Witness for the C10 theorem at a concrete headerless response. -/
theorem missing_content_type_treated_as_html_witness :
    headerGet (FetchOk.mk 200 [] ("https://example.org/x".data) ("<p>ok</p>".data)).headers
      ("content-type".data) = none ∧
    (handleProxyRequest ⟨some ("https://example.org/x".data), none, false, false, ("p.test".data)⟩
      (fun _ => .ok ⟨200, [], ("https://example.org/x".data), ("<p>ok</p>".data)⟩)
      ([]) 3).1 = 200 := by
  refine ⟨rfl, ?_⟩
  rw [(missing_content_type_treated_as_html
    ⟨some ("https://example.org/x".data), none, false, false, ("p.test".data)⟩
    (fun _ => .ok ⟨200, [], ("https://example.org/x".data), ("<p>ok</p>".data)⟩)
    ([]) 3 ("https://example.org/x".data)
    ⟨200, [], ("https://example.org/x".data), ("<p>ok</p>".data)⟩
    (by decide) rfl rfl (by decide))]

/-- Claim C5, counterexample: a text/html resource is answered by the
relay with its body byte-for-byte unchanged, although running the Rewrite
Engine on that body would have produced a different document — the claimed
recursive rewrite does not happen. -/
theorem resource_relay_html_passes_through_concrete :
    handleResourceRequest (some ("https://example.com/frame.html".data)) false
      ("proxy.test".data)
      (fun _ => .ok ⟨200, [(("Content-Type".data), ("text/html".data))], [],
        ("<p>hi</p>".data)⟩) =
      ⟨200, some ("text/html".data), ("<p>hi</p>".data), false⟩ ∧
    transformHtml ("<p>hi</p>".data) ("https://example.com/frame.html".data)
      ("http://proxy.test".data) ≠ ("<p>hi</p>".data) := by
  refine ⟨by decide, by decide⟩

/-- Claim C5, amended: the resource relay passes every non-CSS text
response through unchanged — text/html included — because the dispatch only
distinguishes text/css, then any javascript or text/* type; the full
Rewrite Engine is never run on the resource endpoint. -/
theorem resource_relay_text_passthrough (u : Str) (secure : Bool) (host : Str)
    (fetchFn : Str → FetchOutcome) (target : Str) (resp : FetchOk)
    (hu : u ≠ [])
    (hdec : decodeURIComponentJs u = some target)
    (hf : fetchFn target = .ok resp)
    (hcss : containsSubstr (relayContentType resp) ("text/css".data) = false)
    (htext : containsSubstr (relayContentType resp) ("javascript".data) = true ∨
      containsSubstr (relayContentType resp) ("text/".data) = true) :
    handleResourceRequest (some u) secure host fetchFn =
      ⟨200, some (relayContentType resp), resp.body, false⟩ := by
  rw [handleResourceRequest]
  simp only []
  rw [if_neg hu, hdec]
  simp only []
  rw [hf]
  simp only []
  rw [if_neg (by simp [hcss])]
  rw [if_pos (by rcases htext with h | h <;> simp [h])]

/-- Witness for the C5 theorem at a concrete text/html resource. -/
theorem resource_relay_text_passthrough_witness :
    decodeURIComponentJs ("https://example.com/sub.html".data) =
      some ("https://example.com/sub.html".data) ∧
    handleResourceRequest (some ("https://example.com/sub.html".data)) false ("p.test".data)
      (fun _ => .ok ⟨200, [(("content-type".data), ("text/html; charset=utf-8".data))], [],
        ("<div>x</div>".data)⟩) =
      ⟨200, some ("text/html; charset=utf-8".data), ("<div>x</div>".data), false⟩ :=
  ⟨by decide, resource_relay_text_passthrough ("https://example.com/sub.html".data) false
    ("p.test".data)
    (fun _ => .ok ⟨200, [(("content-type".data), ("text/html; charset=utf-8".data))], [],
      ("<div>x</div>".data)⟩)
    ("https://example.com/sub.html".data)
    ⟨200, [(("content-type".data), ("text/html; charset=utf-8".data))], [],
      ("<div>x</div>".data)⟩
    (by decide) (by decide) rfl (by decide) (Or.inr (by decide))⟩

/-- Claim C6, counterexample: the anchor href value
https://example.com/page resolves to an absolute URL, yet `transformHtml`
leaves the whole anchor untouched (only the base tag and the intercept
script are prepended) — the href pass matches only link elements, so not
every href attribute is rewritten. -/
theorem anchor_href_not_rewritten :
    resolveUrl ("https://example.com/page".data) ("https://example.com/".data) =
      some ("https://example.com/page".data) ∧
    transformHtml ("<a href=\x22https://example.com/page\x22>x</a>".data)
      ("https://example.com/".data) ("http://proxy.test".data) =
      baseTagFor ("https://example.com/".data) ++
        ('\n' :: proxyInterceptScript ("http://proxy.test".data) ("https://example.com/".data)) ++
        ('\n' :: ("<a href=\x22https://example.com/page\x22>x</a>".data)) :=
  ⟨by decide,
   transformHtml_untouched ("<a href=\x22https://example.com/page\x22>x</a>".data)
     ("https://example.com/".data) ("http://proxy.test".data)
     (by decide) (by decide) (by decide) (by decide) (by decide) (by decide)⟩

/-- Claim C6, amended: for clean documents, a src attribute on any
element, an href attribute on a link element (with an attribute before it),
and an action attribute on a form element whose value resolves against the
rewrite base are each replaced by
proxyBase ++ /api/resource?url= ++ encodeURIComponent(resolvedUrl); href on
other elements is not rewritten (see the counterexample), and unresolvable
values stay unchanged (see claim C7).  The noMatchOpt / hasHeadMatch
hypotheses are the cleanliness side conditions: the rest of the document
must not trigger the other rewrite passes. -/
theorem attr_rewrite_src_link_form :
    (∀ pre tagName url post base pb rr : Str,
      tagName ≠ [] →
      (∀ c ∈ tagName, ¬(isJsSpace c = true) ∧ c ≠ '>') →
      url ≠ [] →
      (∀ c ∈ url, ¬(isJsSpace c = true) ∧ c ≠ '>' ∧ isQuote c = false) →
      (∀ c ∈ pre, c ≠ '<') →
      (∀ c ∈ post, c ≠ '<') →
      resolveUrl url base = some rr →
      rr ≠ [] →
      noMatchOpt (tryMatchLitAttr ("link".data) ("href=".data))
        (attrTagDoc pre tagName ("src=".data) (proxiedResourceUrl pb rr) post) = true →
      noMatchOpt (tryMatchLitAttr ("form".data) ("action=".data))
        (attrTagDoc pre tagName ("src=".data) (proxiedResourceUrl pb rr) post) = true →
      noMatchOpt (tryMatchAttr ("srcset=".data))
        (attrTagDoc pre tagName ("src=".data) (proxiedResourceUrl pb rr) post) = true →
      noMatchOpt tryCssAt
        (attrTagDoc pre tagName ("src=".data) (proxiedResourceUrl pb rr) post) = true →
      hasHeadMatch (attrTagDoc pre tagName ("src=".data) (proxiedResourceUrl pb rr) post) =
        false →
      transformHtml (attrTagDoc pre tagName ("src=".data) url post) base pb =
        baseTagFor base ++ ('\n' :: proxyInterceptScript pb base) ++
          ('\n' :: attrTagDoc pre tagName ("src=".data) (proxiedResourceUrl pb rr) post)) ∧
    (∀ pre mid url post base pb rr : Str,
      (∀ c ∈ mid, ¬(isJsSpace c = true) ∧ c ≠ '>') →
      url ≠ [] →
      (∀ c ∈ url, ¬(isJsSpace c = true) ∧ c ≠ '>' ∧ isQuote c = false) →
      (∀ c ∈ pre, c ≠ '<') →
      (∀ c ∈ post, c ≠ '<') →
      resolveUrl url base = some rr →
      rr ≠ [] →
      noMatchOpt (tryMatchAttr ("src=".data))
        (litTagDoc pre ("link".data) mid ("href=".data) url post) = true →
      noMatchOpt (tryMatchLitAttr ("form".data) ("action=".data))
        (litTagDoc pre ("link".data) mid ("href=".data) (proxiedResourceUrl pb rr) post) =
        true →
      noMatchOpt (tryMatchAttr ("srcset=".data))
        (litTagDoc pre ("link".data) mid ("href=".data) (proxiedResourceUrl pb rr) post) =
        true →
      noMatchOpt tryCssAt
        (litTagDoc pre ("link".data) mid ("href=".data) (proxiedResourceUrl pb rr) post) =
        true →
      hasHeadMatch
        (litTagDoc pre ("link".data) mid ("href=".data) (proxiedResourceUrl pb rr) post) =
        false →
      transformHtml (litTagDoc pre ("link".data) mid ("href=".data) url post) base pb =
        baseTagFor base ++ ('\n' :: proxyInterceptScript pb base) ++
          ('\n' ::
            litTagDoc pre ("link".data) mid ("href=".data) (proxiedResourceUrl pb rr) post)) ∧
    (∀ pre mid url post base pb rr : Str,
      (∀ c ∈ mid, ¬(isJsSpace c = true) ∧ c ≠ '>') →
      url ≠ [] →
      (∀ c ∈ url, ¬(isJsSpace c = true) ∧ c ≠ '>' ∧ isQuote c = false) →
      (∀ c ∈ pre, c ≠ '<') →
      (∀ c ∈ post, c ≠ '<') →
      resolveUrl url base = some rr →
      rr ≠ [] →
      noMatchOpt (tryMatchAttr ("src=".data))
        (litTagDoc pre ("form".data) mid ("action=".data) url post) = true →
      noMatchOpt (tryMatchLitAttr ("link".data) ("href=".data))
        (litTagDoc pre ("form".data) mid ("action=".data) url post) = true →
      noMatchOpt (tryMatchAttr ("srcset=".data))
        (litTagDoc pre ("form".data) mid ("action=".data) (proxiedResourceUrl pb rr) post) =
        true →
      noMatchOpt tryCssAt
        (litTagDoc pre ("form".data) mid ("action=".data) (proxiedResourceUrl pb rr) post) =
        true →
      hasHeadMatch
        (litTagDoc pre ("form".data) mid ("action=".data) (proxiedResourceUrl pb rr) post) =
        false →
      transformHtml (litTagDoc pre ("form".data) mid ("action=".data) url post) base pb =
        baseTagFor base ++ ('\n' :: proxyInterceptScript pb base) ++
          ('\n' ::
            litTagDoc pre ("form".data) mid ("action=".data) (proxiedResourceUrl pb rr) post)) := by
  refine ⟨?_, ?_, ?_⟩
  · intro pre tagName url post base pb rr h1 h2 h3 h4 h5 h6 h7 h8 hL hF hS hC hH
    exact transformHtml_src_doc pre tagName url post base pb rr h1 h2 h3 h4 h5 h6 h7 h8
      hL hF hS hC hH
  · intro pre mid url post base pb rr hmid h3 h4 h5 h6 h7 h8 hA hF hS hC hH
    exact transformHtml_link_doc pre mid url post base pb rr hmid h3 h4 h5 h6 h7 h8
      hA hF hS hC hH
  · intro pre mid url post base pb rr hmid h3 h4 h5 h6 h7 h8 hA hL hS hC hH
    exact transformHtml_form_doc pre mid url post base pb rr hmid h3 h4 h5 h6 h7 h8
      hA hL hS hC hH

/-- Witness for the C6 theorem: an img src, a link href and a form action
at concrete values, all rewritten to the resource endpoint. -/
theorem attr_rewrite_src_link_form_witness :
    resolveUrl ("/a.png".data) ("https://example.com/".data) =
      some ("https://example.com/a.png".data) ∧
    transformHtml (attrTagDoc [] ("img".data) ("src=".data) ("/a.png".data) [])
      ("https://example.com/".data) ("http://proxy.test".data) =
      baseTagFor ("https://example.com/".data) ++
        ('\n' :: proxyInterceptScript ("http://proxy.test".data) ("https://example.com/".data)) ++
        ('\n' :: attrTagDoc [] ("img".data) ("src=".data)
          (proxiedResourceUrl ("http://proxy.test".data) ("https://example.com/a.png".data)) []) ∧
    transformHtml
      (litTagDoc [] ("link".data) ("rel=\x22stylesheet\x22".data) ("href=".data) ("/s.css".data) [])
      ("https://example.com/".data) ("http://proxy.test".data) =
      baseTagFor ("https://example.com/".data) ++
        ('\n' :: proxyInterceptScript ("http://proxy.test".data) ("https://example.com/".data)) ++
        ('\n' :: litTagDoc [] ("link".data) ("rel=\x22stylesheet\x22".data) ("href=".data)
          (proxiedResourceUrl ("http://proxy.test".data) ("https://example.com/s.css".data)) []) ∧
    transformHtml
      (litTagDoc [] ("form".data) ("method=\x22post\x22".data) ("action=".data) ("/go".data) [])
      ("https://example.com/".data) ("http://proxy.test".data) =
      baseTagFor ("https://example.com/".data) ++
        ('\n' :: proxyInterceptScript ("http://proxy.test".data) ("https://example.com/".data)) ++
        ('\n' :: litTagDoc [] ("form".data) ("method=\x22post\x22".data) ("action=".data)
          (proxiedResourceUrl ("http://proxy.test".data) ("https://example.com/go".data)) []) :=
  ⟨by decide,
   attr_rewrite_src_link_form.1 [] ("img".data) ("/a.png".data) [] ("https://example.com/".data)
     ("http://proxy.test".data) ("https://example.com/a.png".data)
     (by decide) (by decide) (by decide) (by decide) (by decide) (by decide) (by decide)
     (by decide) (by decide) (by decide) (by decide) (by decide) (by decide),
   attr_rewrite_src_link_form.2.1 [] ("rel=\x22stylesheet\x22".data) ("/s.css".data) []
     ("https://example.com/".data) ("http://proxy.test".data) ("https://example.com/s.css".data)
     (by decide) (by decide) (by decide) (by decide) (by decide) (by decide) (by decide)
     (by decide) (by decide) (by decide) (by decide) (by decide),
   attr_rewrite_src_link_form.2.2 [] ("method=\x22post\x22".data) ("/go".data) []
     ("https://example.com/".data) ("http://proxy.test".data) ("https://example.com/go".data)
     (by decide) (by decide) (by decide) (by decide) (by decide) (by decide) (by decide)
     (by decide) (by decide) (by decide) (by decide) (by decide)⟩

/-- Claim C7, counterexample: the href value javascript:url(a.png) starts
with javascript:, yet the rewritten document no longer contains the
original attribute text — the content-wide CSS url() pass rewrote inside
the attribute value, so it is not byte-for-byte unchanged. -/
theorem href_javascript_url_pattern_rewritten :
    List.isPrefixOf ("javascript:".data) ("javascript:url(a.png)".data) = true ∧
    containsSubstr
      (transformHtml ("<a href=\x22javascript:url(a.png)\x22>".data)
        ("https://example.com/".data) ("http://proxy.test".data))
      ("href=\x22javascript:url(a.png)\x22".data) = false := by
  refine ⟨by decide, by decide⟩

/-- Claim C7, amended: an href value that is fragment-only or starts with
javascript:, data:, mailto: or tel: is left byte-for-byte unchanged — on
link elements the regex does match but `resolveUrl` returns null so the
match is emitted verbatim, and on other elements the href pass never
matches — provided the value contains no whitespace, quotes or angle
brackets and the document does not trigger the CSS url() pass or the other
passes (the noMatchOpt side conditions; the counterexample shows the url(
caveat is necessary). -/
theorem special_href_values_left_unchanged :
    (∀ pre mid v post base pb : Str,
      (∀ c ∈ mid, ¬(isJsSpace c = true) ∧ c ≠ '>') →
      v ≠ [] →
      (∀ c ∈ v, ¬(isJsSpace c = true) ∧ c ≠ '>' ∧ isQuote c = false) →
      (∀ c ∈ pre, c ≠ '<') →
      (∀ c ∈ post, c ≠ '<') →
      (List.isPrefixOf ("#".data) v = true ∨ List.isPrefixOf ("javascript:".data) v = true ∨
        List.isPrefixOf ("data:".data) v = true ∨ List.isPrefixOf ("mailto:".data) v = true ∨
        List.isPrefixOf ("tel:".data) v = true) →
      noMatchOpt (tryMatchAttr ("src=".data))
        (litTagDoc pre ("link".data) mid ("href=".data) v post) = true →
      noMatchOpt (tryMatchLitAttr ("form".data) ("action=".data))
        (litTagDoc pre ("link".data) mid ("href=".data) v post) = true →
      noMatchOpt (tryMatchAttr ("srcset=".data))
        (litTagDoc pre ("link".data) mid ("href=".data) v post) = true →
      noMatchOpt tryCssAt (litTagDoc pre ("link".data) mid ("href=".data) v post) = true →
      hasHeadMatch (litTagDoc pre ("link".data) mid ("href=".data) v post) = false →
      transformHtml (litTagDoc pre ("link".data) mid ("href=".data) v post) base pb =
        baseTagFor base ++ ('\n' :: proxyInterceptScript pb base) ++
          ('\n' :: litTagDoc pre ("link".data) mid ("href=".data) v post)) ∧
    (∀ pre v post base pb : Str,
      (List.isPrefixOf ("#".data) v = true ∨ List.isPrefixOf ("javascript:".data) v = true ∨
        List.isPrefixOf ("data:".data) v = true ∨ List.isPrefixOf ("mailto:".data) v = true ∨
        List.isPrefixOf ("tel:".data) v = true) →
      noMatchOpt (tryMatchAttr ("src=".data))
        (attrTagDoc pre ("a".data) ("href=".data) v post) = true →
      noMatchOpt (tryMatchLitAttr ("link".data) ("href=".data))
        (attrTagDoc pre ("a".data) ("href=".data) v post) = true →
      noMatchOpt (tryMatchLitAttr ("form".data) ("action=".data))
        (attrTagDoc pre ("a".data) ("href=".data) v post) = true →
      noMatchOpt (tryMatchAttr ("srcset=".data))
        (attrTagDoc pre ("a".data) ("href=".data) v post) = true →
      noMatchOpt tryCssAt (attrTagDoc pre ("a".data) ("href=".data) v post) = true →
      hasHeadMatch (attrTagDoc pre ("a".data) ("href=".data) v post) = false →
      transformHtml (attrTagDoc pre ("a".data) ("href=".data) v post) base pb =
        baseTagFor base ++ ('\n' :: proxyInterceptScript pb base) ++
          ('\n' :: attrTagDoc pre ("a".data) ("href=".data) v post)) := by
  constructor
  · intro pre mid v post base pb hmid h3 h4 h5 h6 h7 hA hF hS hC hH
    exact transformHtml_link_skip pre mid v post base pb hmid h3 h4 h5 h6 h7 hA hF hS hC hH
  · intro pre v post base pb _ hA hL hF hS hC hH
    exact transformHtml_untouched (attrTagDoc pre ("a".data) ("href=".data) v post) base pb
      hA hL hF hS hC hH

/-- Witness for the C7 theorem: a link href with a fragment value and an
anchor href with a mailto: value, both left unchanged. -/
theorem special_href_values_left_unchanged_witness :
    List.isPrefixOf ("#".data) ("#top".data) = true ∧
    transformHtml
      (litTagDoc [] ("link".data) ("rel=\x22next\x22".data) ("href=".data) ("#top".data) [])
      ("https://example.com/".data) ("http://proxy.test".data) =
      baseTagFor ("https://example.com/".data) ++
        ('\n' :: proxyInterceptScript ("http://proxy.test".data) ("https://example.com/".data)) ++
        ('\n' :: litTagDoc [] ("link".data) ("rel=\x22next\x22".data) ("href=".data)
          ("#top".data) []) ∧
    transformHtml (attrTagDoc [] ("a".data) ("href=".data) ("mailto:a@b.example".data) [])
      ("https://example.com/".data) ("http://proxy.test".data) =
      baseTagFor ("https://example.com/".data) ++
        ('\n' :: proxyInterceptScript ("http://proxy.test".data) ("https://example.com/".data)) ++
        ('\n' :: attrTagDoc [] ("a".data) ("href=".data) ("mailto:a@b.example".data) []) :=
  ⟨by decide,
   special_href_values_left_unchanged.1 [] ("rel=\x22next\x22".data) ("#top".data) []
     ("https://example.com/".data) ("http://proxy.test".data)
     (by decide) (by decide) (by decide) (by decide) (by decide) (Or.inl (by decide))
     (by decide) (by decide) (by decide) (by decide) (by decide),
   special_href_values_left_unchanged.2 [] ("mailto:a@b.example".data) []
     ("https://example.com/".data) ("http://proxy.test".data)
     (Or.inr (Or.inr (Or.inr (Or.inl (by decide)))))
     (by decide) (by decide) (by decide) (by decide) (by decide) (by decide)⟩
